import Mathlib

/-!
Verification of the ECS manager Lambda (src/functions/manager.py, with the
duplicated update_service helper in src/functions/boto3_helpers.py).

The embedding is shallow: Python values are modelled by the inductive type
`PyVal` (association lists stand for dicts, preserving insertion order, as
CPython dicts are ordered and the program never builds a dict with duplicate
keys), Python exceptions by `Exn`, and each function of the source by a Lean
function of the same name.  Code that can raise returns through the monad `M`,
which pairs an `Except Exn` outcome with a `Trace` recording the boto3 calls
that were issued and the log entries that were emitted.  The boto3 client,
the SSM paginator and the regular-expression engine are external collaborators
and are modelled as an oracle environment `Env`; `boto3.client(...)` and
`ecs.get_waiter(...)` construction is treated as pure.  Wall-clock time and
stack-trace text are environment data, not modelled beyond placeholders.
-/

/-- A Python value as used by the manager module: JSON-shaped data plus the
`datetime` objects that appear in ECS task descriptions.  Dicts are ordered
association lists. -/
inductive PyVal where
  | vnone
  | vstr (s : String)
  | vint (n : Int)
  | vbool (b : Bool)
  | vdatetime (iso : String)
  | vlist (xs : List PyVal)
  | vdict (kvs : List (String × PyVal))
deriving Repr

mutual

def PyVal.decEq : (a b : PyVal) → Decidable (a = b)
  | .vnone, .vnone => isTrue rfl
  | .vstr a, .vstr b =>
      match String.decEq a b with
      | isTrue h => isTrue (by rw [h])
      | isFalse h => isFalse (fun hh => h (by injection hh))
  | .vint a, .vint b =>
      match Int.decEq a b with
      | isTrue h => isTrue (by rw [h])
      | isFalse h => isFalse (fun hh => h (by injection hh))
  | .vbool a, .vbool b =>
      match Bool.decEq a b with
      | isTrue h => isTrue (by rw [h])
      | isFalse h => isFalse (fun hh => h (by injection hh))
  | .vdatetime a, .vdatetime b =>
      match String.decEq a b with
      | isTrue h => isTrue (by rw [h])
      | isFalse h => isFalse (fun hh => h (by injection hh))
  | .vlist xs, .vlist ys =>
      match PyVal.decEqList xs ys with
      | isTrue h => isTrue (by rw [h])
      | isFalse h => isFalse (fun hh => h (by injection hh))
  | .vdict xs, .vdict ys =>
      match PyVal.decEqDict xs ys with
      | isTrue h => isTrue (by rw [h])
      | isFalse h => isFalse (fun hh => h (by injection hh))
  | .vnone, .vstr _ => isFalse (by intro h; exact PyVal.noConfusion h)
  | .vnone, .vint _ => isFalse (by intro h; exact PyVal.noConfusion h)
  | .vnone, .vbool _ => isFalse (by intro h; exact PyVal.noConfusion h)
  | .vnone, .vdatetime _ => isFalse (by intro h; exact PyVal.noConfusion h)
  | .vnone, .vlist _ => isFalse (by intro h; exact PyVal.noConfusion h)
  | .vnone, .vdict _ => isFalse (by intro h; exact PyVal.noConfusion h)
  | .vstr _, .vnone => isFalse (by intro h; exact PyVal.noConfusion h)
  | .vstr _, .vint _ => isFalse (by intro h; exact PyVal.noConfusion h)
  | .vstr _, .vbool _ => isFalse (by intro h; exact PyVal.noConfusion h)
  | .vstr _, .vdatetime _ => isFalse (by intro h; exact PyVal.noConfusion h)
  | .vstr _, .vlist _ => isFalse (by intro h; exact PyVal.noConfusion h)
  | .vstr _, .vdict _ => isFalse (by intro h; exact PyVal.noConfusion h)
  | .vint _, .vnone => isFalse (by intro h; exact PyVal.noConfusion h)
  | .vint _, .vstr _ => isFalse (by intro h; exact PyVal.noConfusion h)
  | .vint _, .vbool _ => isFalse (by intro h; exact PyVal.noConfusion h)
  | .vint _, .vdatetime _ => isFalse (by intro h; exact PyVal.noConfusion h)
  | .vint _, .vlist _ => isFalse (by intro h; exact PyVal.noConfusion h)
  | .vint _, .vdict _ => isFalse (by intro h; exact PyVal.noConfusion h)
  | .vbool _, .vnone => isFalse (by intro h; exact PyVal.noConfusion h)
  | .vbool _, .vstr _ => isFalse (by intro h; exact PyVal.noConfusion h)
  | .vbool _, .vint _ => isFalse (by intro h; exact PyVal.noConfusion h)
  | .vbool _, .vdatetime _ => isFalse (by intro h; exact PyVal.noConfusion h)
  | .vbool _, .vlist _ => isFalse (by intro h; exact PyVal.noConfusion h)
  | .vbool _, .vdict _ => isFalse (by intro h; exact PyVal.noConfusion h)
  | .vdatetime _, .vnone => isFalse (by intro h; exact PyVal.noConfusion h)
  | .vdatetime _, .vstr _ => isFalse (by intro h; exact PyVal.noConfusion h)
  | .vdatetime _, .vint _ => isFalse (by intro h; exact PyVal.noConfusion h)
  | .vdatetime _, .vbool _ => isFalse (by intro h; exact PyVal.noConfusion h)
  | .vdatetime _, .vlist _ => isFalse (by intro h; exact PyVal.noConfusion h)
  | .vdatetime _, .vdict _ => isFalse (by intro h; exact PyVal.noConfusion h)
  | .vlist _, .vnone => isFalse (by intro h; exact PyVal.noConfusion h)
  | .vlist _, .vstr _ => isFalse (by intro h; exact PyVal.noConfusion h)
  | .vlist _, .vint _ => isFalse (by intro h; exact PyVal.noConfusion h)
  | .vlist _, .vbool _ => isFalse (by intro h; exact PyVal.noConfusion h)
  | .vlist _, .vdatetime _ => isFalse (by intro h; exact PyVal.noConfusion h)
  | .vlist _, .vdict _ => isFalse (by intro h; exact PyVal.noConfusion h)
  | .vdict _, .vnone => isFalse (by intro h; exact PyVal.noConfusion h)
  | .vdict _, .vstr _ => isFalse (by intro h; exact PyVal.noConfusion h)
  | .vdict _, .vint _ => isFalse (by intro h; exact PyVal.noConfusion h)
  | .vdict _, .vbool _ => isFalse (by intro h; exact PyVal.noConfusion h)
  | .vdict _, .vdatetime _ => isFalse (by intro h; exact PyVal.noConfusion h)
  | .vdict _, .vlist _ => isFalse (by intro h; exact PyVal.noConfusion h)

def PyVal.decEqList : (xs ys : List PyVal) → Decidable (xs = ys)
  | [], [] => isTrue rfl
  | [], _ :: _ => isFalse (by intro h; exact List.noConfusion h)
  | _ :: _, [] => isFalse (by intro h; exact List.noConfusion h)
  | x :: xs, y :: ys =>
      match PyVal.decEq x y, PyVal.decEqList xs ys with
      | isTrue h₁, isTrue h₂ => isTrue (by rw [h₁, h₂])
      | isFalse h₁, _ => isFalse (fun hh => h₁ (by injection hh))
      | _, isFalse h₂ => isFalse (fun hh => h₂ (by injection hh))

def PyVal.decEqDict : (xs ys : List (String × PyVal)) → Decidable (xs = ys)
  | [], [] => isTrue rfl
  | [], _ :: _ => isFalse (by intro h; exact List.noConfusion h)
  | _ :: _, [] => isFalse (by intro h; exact List.noConfusion h)
  | (k₁, v₁) :: xs, (k₂, v₂) :: ys =>
      match String.decEq k₁ k₂, PyVal.decEq v₁ v₂, PyVal.decEqDict xs ys with
      | isTrue h₀, isTrue h₁, isTrue h₂ => isTrue (by rw [h₀, h₁, h₂])
      | isFalse h₀, _, _ =>
          isFalse (fun hh => h₀ (by injection hh with h₃ _; injection h₃))
      | _, isFalse h₁, _ =>
          isFalse (fun hh => h₁ (by injection hh with h₃ _; injection h₃))
      | _, _, isFalse h₂ => isFalse (fun hh => h₂ (by injection hh))

end

instance : DecidableEq PyVal := PyVal.decEq

instance {ε α : Type} [DecidableEq ε] [DecidableEq α] :
    DecidableEq (Except ε α) := fun a b =>
  match a, b with
  | .ok x, .ok y =>
      if h : x = y then isTrue (by rw [h])
      else isFalse (fun hh => h (by injection hh))
  | .error e, .error f =>
      if h : e = f then isTrue (by rw [h])
      else isFalse (fun hh => h (by injection hh))
  | .ok _, .error _ => isFalse (fun hh => Except.noConfusion hh)
  | .error _, .ok _ => isFalse (fun hh => Except.noConfusion hh)

/-- Python truthiness: `None`, `False`, `0`, `""`, `[]` and `\x7b\x7d` are
falsy, everything else (including every datetime) is truthy. -/
def PyVal.truthy : PyVal → Bool
  | .vnone => false
  | .vstr s => s ≠ ""
  | .vint n => n ≠ 0
  | .vbool b => b
  | .vdatetime _ => true
  | .vlist xs => ¬ xs.isEmpty
  | .vdict kvs => ¬ kvs.isEmpty

/-- `isinstance(v, str)`. -/
def PyVal.isStr : PyVal → Bool
  | .vstr _ => true
  | _ => false

/-- `isinstance(v, list)`. -/
def PyVal.isList : PyVal → Bool
  | .vlist _ => true
  | _ => false

/-- `isinstance(v, dict)`. -/
def PyVal.isDict : PyVal → Bool
  | .vdict _ => true
  | _ => false

/-- Python `a or b`: the left operand when truthy, otherwise the right. -/
def pyOr (a b : PyVal) : PyVal := if a.truthy then a else b

mutual

/-- Python `repr`, as far as the manager renders values into messages: plain
strings get single quotes, `None`/`True`/`False` their literal names.
(CPython would switch a string to double quotes if it contained a single
quote; the strings the program renders never do.) -/
def pyRepr : PyVal → String
  | .vnone => "None"
  | .vstr s => "'" ++ s ++ "'"
  | .vint n => toString n
  | .vbool true => "True"
  | .vbool false => "False"
  | .vdatetime s => s
  | .vlist xs => "[" ++ pyReprList xs ++ "]"
  | .vdict kvs => "\x7b" ++ pyReprDict kvs ++ "\x7d"

def pyReprList : List PyVal → String
  | [] => ""
  | [x] => pyRepr x
  | x :: rest => pyRepr x ++ ", " ++ pyReprList rest

def pyReprDict : List (String × PyVal) → String
  | [] => ""
  | [(k, v)] => "'" ++ k ++ "': " ++ pyRepr v
  | (k, v) :: rest => "'" ++ k ++ "': " ++ pyRepr v ++ ", " ++ pyReprDict rest

end

/-- Python `str`: like `repr` except that a top-level string is unquoted. -/
def pyStr : PyVal → String
  | .vstr s => s
  | v => pyRepr v

/-- Ordered-dict lookup: `some` value of the first binding of `k`. -/
def dget (kvs : List (String × PyVal)) (k : String) : Option PyVal :=
  match kvs with
  | [] => none
  | (k', v) :: rest => if k' = k then some v else dget rest k

/-- Ordered-dict write: replace the first binding of `k` in place, or append
a new binding (CPython item assignment keeps the insertion position of an
existing key and appends a fresh key at the end). -/
def dset (kvs : List (String × PyVal)) (k : String) (v : PyVal) :
    List (String × PyVal) :=
  match kvs with
  | [] => [(k, v)]
  | (k', v') :: rest =>
      if k' = k then (k', v) :: rest else (k', v') :: dset rest k v

/-- `body.get(k)` on a dict modelled directly as an association list:
the bound value, or `None` when the key is absent. -/
def pygetD (kvs : List (String × PyVal)) (k : String) : PyVal :=
  (dget kvs k).getD .vnone

/-- `list(body)` on a dict modelled as an association list: its keys. -/
def pyKeys (kvs : List (String × PyVal)) : List String := kvs.map Prod.fst

/-- A Python exception, as far as the manager distinguishes them.  The
`other` constructor covers exception classes raised inside the boto3 SDK. -/
inductive Exn where
  | keyError (arg : PyVal)
  | typeError (arg : PyVal)
  | valueError (msg : String)
  | indexError (msg : String)
  | attributeError (msg : String)
  | boto3InputError (msg : String)
  | unboundLocalError (varName : String)
  | reError (msg : String)
  | exception (args : List PyVal)
  | other (name : String) (arg : PyVal)
deriving Repr, DecidableEq

/-- `type(exc).__name__`. -/
def Exn.typeName : Exn → String
  | .keyError _ => "KeyError"
  | .typeError _ => "TypeError"
  | .valueError _ => "ValueError"
  | .indexError _ => "IndexError"
  | .attributeError _ => "AttributeError"
  | .boto3InputError _ => "Boto3InputError"
  | .unboundLocalError _ => "UnboundLocalError"
  | .reError _ => "error"
  | .exception _ => "Exception"
  | .other n _ => n

/-- `str(exc)`.  (CPython renders `KeyError`'s argument with `repr`; the
rendering feeds only human-readable error text.) -/
def Exn.msgStr : Exn → String
  | .keyError a => pyRepr a
  | .typeError a => pyStr a
  | .valueError m => m
  | .indexError m => m
  | .attributeError m => m
  | .boto3InputError m => m
  | .unboundLocalError v =>
      "local variable '" ++ v ++ "' referenced before assignment"
  | .reError m => m
  | .exception args => pyRepr (.vlist args)
  | .other _ a => pyStr a

/-- `d[k]` item access: `KeyError` on a missing key, `TypeError` when the
receiver is not a mapping. -/
def pyIndex (v : PyVal) (k : String) : Except Exn PyVal :=
  match v with
  | .vdict kvs =>
      match dget kvs k with
      | some x => .ok x
      | none => .error (.keyError (.vstr k))
  | _ => .error (.typeError (.vstr "object is not subscriptable"))

/-- `xs[i]` item access on a sequence: `IndexError` past the end,
`TypeError` when the receiver is not a sequence. -/
def pyIndexNat (v : PyVal) (i : Nat) : Except Exn PyVal :=
  match v with
  | .vlist xs =>
      match xs.get? i with
      | some x => .ok x
      | none => .error (.indexError "list index out of range")
  | _ => .error (.typeError (.vstr "object is not subscriptable"))

/-- `v.get(k, d)` attribute call: `AttributeError` when the receiver is not
a dict (CPython: the object has no attribute `get`). -/
def PyVal.get2 (v : PyVal) (k : String) (d : PyVal) : Except Exn PyVal :=
  match v with
  | .vdict kvs => .ok ((dget kvs k).getD d)
  | _ => .error (.attributeError "get")

/-- `v.items()`: `AttributeError` when the receiver is not a dict. -/
def pyItems (v : PyVal) : Except Exn (List (String × PyVal)) :=
  match v with
  | .vdict kvs => .ok kvs
  | _ => .error (.attributeError "items")

/-- `v.update(k=x)` keyword-style dict update: `AttributeError` when the
receiver is not a dict. -/
def pyUpdateKV (v : PyVal) (k : String) (x : PyVal) : Except Exn PyVal :=
  match v with
  | .vdict kvs => .ok (.vdict (dset kvs k x))
  | _ => .error (.attributeError "update")

/-- `v[k] = x` item assignment: `TypeError` when the receiver does not
support item assignment. -/
def pySetItem (v : PyVal) (k : String) (x : PyVal) : Except Exn PyVal :=
  match v with
  | .vdict kvs => .ok (.vdict (dset kvs k x))
  | _ => .error (.typeError (.vstr "object does not support item assignment"))

/-- Iteration: a list yields its items, a dict its keys, a string its
characters; other values raise `TypeError`. -/
def pyIter (v : PyVal) : Except Exn (List PyVal) :=
  match v with
  | .vlist xs => .ok xs
  | .vdict kvs => .ok (kvs.map (fun p => .vstr p.1))
  | .vstr s => .ok (s.toList.map (fun c => .vstr (String.mk [c])))
  | _ => .error (.typeError (.vstr "object is not iterable"))

/-- `a + b` on sequences; anything else the manager could feed it raises
`TypeError`. -/
def pyAdd (a b : PyVal) : Except Exn PyVal :=
  match a, b with
  | .vlist xs, .vlist ys => .ok (.vlist (xs ++ ys))
  | .vstr s, .vstr t => .ok (.vstr (s ++ t))
  | _, _ => .error (.typeError (.vstr "unsupported operand type(s) for +"))

/-- `list(set(v))`: iterate, require every element hashable (lists and dicts
are not), and drop duplicates.  CPython's set iteration order is
unspecified; keeping the first occurrence of each element is one admissible
refinement, and no caller depends on the order. -/
def pyListSet (v : PyVal) : Except Exn PyVal := do
  let xs ← pyIter v
  if xs.any (fun x => x.isList || x.isDict) then
    .error (.typeError (.vstr "unhashable type"))
  else
    .ok (.vlist xs.dedup)

/-- `x in c` membership: equality scan for a list, key lookup for a dict
(unhashable `x` raises), substring test for a string, `TypeError` for
non-containers. -/
def pyMem (x : PyVal) (c : PyVal) : Except Exn Bool :=
  match c with
  | .vlist xs => .ok (xs.contains x)
  | .vdict kvs =>
      match x with
      | .vlist _ => .error (.typeError (.vstr "unhashable type"))
      | .vdict _ => .error (.typeError (.vstr "unhashable type"))
      | .vstr s => .ok (kvs.any (fun p => p.1 = s))
      | _ => .ok false
  | .vstr s =>
      match x with
      | .vstr sub =>
          .ok (sub = "" || ((s.splitOn sub).length > 1))
      | _ => .error (.typeError (.vstr "requires string as left operand"))
  | _ => .error (.typeError (.vstr "argument is not iterable"))

/-- The boto3 / SDK operations the manager issues, used to key the oracle
environment and the call trace. -/
inductive ApiSel where
  | list_tasks
  | describe_tasks
  | describe_services
  | describe_task_definition
  | register_task_definition
  | update_service
  | run_task
  | waiter_wait
  | list_tags_for_resource
deriving Repr, DecidableEq

/-- One recorded remote call: which operation, with which keyword
arguments. -/
structure ApiCall where
  sel : ApiSel
  kwargs : List (String × PyVal)
deriving Repr, DecidableEq

/-- One structured log entry, as issued by `log(msg=..., data=...,
level=...)`. -/
structure LogEntry where
  msg : String
  data : PyVal
  level : String
deriving Repr, DecidableEq

/-- The observable side effects of a run: remote calls and log entries, each
in issue order. -/
structure Trace where
  calls : List ApiCall
  logs : List LogEntry
deriving Repr, DecidableEq

def Trace.empty : Trace := ⟨[], []⟩

def Trace.append (a b : Trace) : Trace :=
  ⟨a.calls ++ b.calls, a.logs ++ b.logs⟩

/-- The effect monad of the embedding: a finished outcome (`Except` for a
propagating Python exception) together with the trace the computation
emitted.  Nothing in the program reads the trace back, so a writer pairing
suffices. -/
def M (α : Type) : Type := Except Exn α × Trace

instance : Monad M where
  pure a := (Except.ok a, Trace.empty)
  bind x f :=
    match x with
    | (Except.ok a, t) =>
        match f a with
        | (r, t') => (r, t.append t')
    | (Except.error e, t) => (Except.error e, t)

/-- `raise e`. -/
def throwM {α : Type} (e : Exn) : M α := (Except.error e, Trace.empty)

/-- Run a pure fallible step inside `M`. -/
def liftExc {α : Type} (x : Except Exn α) : M α := (x, Trace.empty)

/-- Record one remote call in the trace. -/
def recordCall (c : ApiCall) : M Unit := (Except.ok (), ⟨[c], []⟩)

/-- `log(msg=..., data=..., level=...)`. -/
def logM (msg : String) (data : PyVal) (level : String) : M Unit :=
  (Except.ok (), ⟨[], [⟨msg, data, level⟩]⟩)

/-- `log(**err_msg)` for the pre-formatted error dicts the manager builds:
their `msg`, `data` and `level` entries become the log fields. -/
def logDict (errMsg : PyVal) : M Unit :=
  logM (pyStr ((errMsg.get2 "msg" .vnone).toOption.getD .vnone))
    ((errMsg.get2 "data" .vnone).toOption.getD .vnone)
    (pyStr ((errMsg.get2 "level" .vnone).toOption.getD .vnone))

/-- The oracle environment: the remote API (keyword arguments in, payload or
raised exception out), the regular-expression compiler (`re.compile`
producing a `fullmatch` engine, or raising), the pages yielded by the SSM
`describe_parameters` paginator, and the wall-clock duration string measured
by the dispatcher. -/
structure Env where
  api : ApiSel → List (String × PyVal) → Except Exn PyVal
  re_compile : String → Except Exn (String → Bool)
  ssm_pages : List PyVal
  duration : String

/-- `Boto3Result` (manager.py lines 78-120): the stored attributes.  `status`
and `error` are properties and appear below as functions. -/
structure Boto3Result where
  response : Option PyVal
  exc : Option Exn
deriving Repr, DecidableEq

/-- `Boto3Result.__init__` (manager.py lines 96-120): raises
`Boto3InputError` when the response is not a dict AND no exception was
passed; otherwise stores both arguments. -/
def Boto3Result.init (response : Option PyVal) (exc : Option Exn) :
    Except Exn Boto3Result :=
  if ¬ (response.getD .vnone).isDict ∧ exc.isNone then
    .error (.boto3InputError "At least one argument is required")
  else
    .ok ⟨response, exc⟩

/-- `self.body`: `response or \x7b\x7d`, computed at construction
(manager.py line 119). -/
def Boto3Result.body (r : Boto3Result) : PyVal :=
  match r.response with
  | some v => pyOr v (.vdict [])
  | none => .vdict []

/-- The `status` property (manager.py lines 122-131): with a response,
`str` of the nested `ResponseMetadata.HTTPStatusCode` lookup — which is the
string "None" when the lookup misses — and `None` (absent) without a
response. -/
def Boto3Result.status (r : Boto3Result) : Option String :=
  match r.response with
  | some resp =>
      some (pyStr (((resp.get2 "ResponseMetadata" (.vdict []))
          |>.bind (fun md => md.get2 "HTTPStatusCode" .vnone))
          |>.toOption.getD .vnone))
  | none => none

/-- The `error` property (manager.py lines 133-162).  Stack-trace text is an
artifact of the runtime and is modelled as an empty list. -/
def Boto3Result.error (r : Boto3Result) : PyVal :=
  match r.exc with
  | some e =>
      .vdict [("title", .vstr e.typeName), ("message", .vstr e.msgStr),
              ("traceback", .vlist [])]
  | none =>
      let respOr := match r.response with
        | some v => pyOr v (.vdict [])
        | none => .vdict []
      let failures := (respOr.get2 "failures" .vnone).toOption.getD .vnone
      if failures.truthy then
        .vdict [("title", .vstr "Response included failures"),
                ("message", failures), ("traceback", .vnone)]
      else
        match r.status with
        | some s =>
            if s ≠ "" ∧ s ≠ "None" ∧ s ≠ "200" then
              .vdict [("title", .vstr ("HTTP status not OK: " ++ s)),
                      ("message",
                       .vdict [("response", r.response.getD .vnone)]),
                      ("traceback", .vnone)]
            else .vdict []
        | none => .vdict []

/-- Truthiness of the `error` property, as tested by every
`if r.error: return r` guard. -/
def Boto3Result.errTruthy (r : Boto3Result) : Bool := r.error.truthy

/-- `invoke` (manager.py lines 169-187): call the function with the keyword
arguments; a raised exception is wrapped into a `Boto3Result`, a normal
return is wrapped as `Boto3Result(response=r or \x7b\x7d)`.  The `else`
branch runs outside the `try`, so an exception raised by that second
constructor call (a truthy non-dict return) propagates. -/
def invoke (f : List (String × PyVal) → Except Exn PyVal)
    (kwargs : List (String × PyVal)) : Except Exn Boto3Result :=
  match f kwargs with
  | .error exc => Boto3Result.init none (some exc)
  | .ok r => Boto3Result.init (some (pyOr r (.vdict []))) none

/-- `invoke` applied to one of the oracle's operations, with the call
recorded in the trace. -/
def invokeApi (env : Env) (sel : ApiSel) (kwargs : List (String × PyVal)) :
    M Boto3Result := do
  recordCall ⟨sel, kwargs⟩
  liftExc (invoke (env.api sel) kwargs)

/-- `_missing_required_keys` (manager.py lines 32-63).  The `TypeError`
branch compares `isinstance(..., list)` on both arguments and cannot fire
here, where both arguments are lists by construction.  Raises `ValueError`
when every required key is among the found keys. -/
def missingRequiredKeys (required_keys : List String)
    (found_keys : List String) : Except Exn PyVal :=
  let missing_keys := required_keys.filter (fun k => ¬ found_keys.contains k)
  if missing_keys.isEmpty then
    .error (.valueError "there were no missing keys")
  else
    .ok (.vdict
      [("msg", .vstr "Required field(s) not found"),
       ("data", .vstr
         ("'" ++ pyStr (.vlist (missing_keys.map .vstr)) ++
          "' field(s) not optional. Found: " ++
          pyStr (.vlist (found_keys.map .vstr)) ++ ".  Required: " ++
          pyStr (.vlist (required_keys.map .vstr)))),
       ("level", .vstr "critical")])

/-- The `for ... else` search in `_generate_container_definition`
(manager.py lines 279-285): the first container definition whose `name`
equals the target (`.inl`), or `.inr` with the last definition visited (the
loop variable the `else` branch reads; `none` when the list was empty, in
which case that read raises `UnboundLocalError`). -/
def findContainerDefinition (container_name : PyVal) :
    List PyVal → Option PyVal → Except Exn (Sum PyVal (Option PyVal))
  | [], lastSeen => .ok (.inr lastSeen)
  | cd :: rest, _ => do
      let n ← pyIndex cd "name"
      if n = container_name then .ok (.inl cd)
      else findContainerDefinition container_name rest (some cd)

/-- `_generate_container_definition` (manager.py lines 260-294): locate the
named container definition (logging and raising `KeyError` when absent),
point its log-stream prefix at "lambda", and replace its command and port
mappings. -/
def _generate_container_definition (taskdef : PyVal) (container_name : PyVal)
    (entrypoint : PyVal) : M PyVal := do
  let cdefsV ← liftExc (pyIndex taskdef "containerDefinitions")
  let cdefs ← liftExc (pyIter cdefsV)
  match ← liftExc (findContainerDefinition container_name cdefs none) with
  | .inr lastSeen =>
      match lastSeen with
      | none =>
          -- the else branch logs the loop variable, which was never
          -- assigned when containerDefinitions was empty
          throwM (.unboundLocalError "container_definition")
      | some cd => do
          let msg :=
            "Definition for container " ++ pyStr container_name ++
              " not found."
          logM msg cd "critical"
          throwM (.keyError (.vstr msg))
  | .inl cd => do
      let lc ← liftExc (pyIndex cd "logConfiguration")
      let opts ← liftExc (pyIndex lc "options")
      let opts' ← liftExc (pySetItem opts "awslogs-stream-prefix"
        (.vstr "lambda"))
      let lc' ← liftExc (pySetItem lc "options" opts')
      let cd' ← liftExc (pySetItem cd "logConfiguration" lc')
      let cd'' ← liftExc (pyUpdateKV cd' "command" entrypoint)
      liftExc (pyUpdateKV cd'' "portMappings" (.vlist []))

/-- `register_task_definition` (manager.py lines 190-217): re-registers a
task definition from the eight fields of an existing one.  The field reads
are dict indexing and happen while the kwargs are being built, before
`invoke` is entered. -/
def register_task_definition (env : Env) (taskdef : PyVal) : M Boto3Result := do
  let family ← liftExc (pyIndex taskdef "family")
  let containerDefinitions ← liftExc (pyIndex taskdef "containerDefinitions")
  let executionRoleArn ← liftExc (pyIndex taskdef "executionRoleArn")
  let taskRoleArn ← liftExc (pyIndex taskdef "taskRoleArn")
  let networkMode ← liftExc (pyIndex taskdef "networkMode")
  let cpu ← liftExc (pyIndex taskdef "cpu")
  let memory ← liftExc (pyIndex taskdef "memory")
  let requiresCompatibilities ←
    liftExc (pyIndex taskdef "requiresCompatibilities")
  invokeApi env .register_task_definition
    [("family", family),
     ("containerDefinitions", containerDefinitions),
     ("executionRoleArn", executionRoleArn),
     ("taskRoleArn", taskRoleArn),
     ("networkMode", networkMode),
     ("cpu", cpu),
     ("memory", memory),
     ("requiresCompatibilities", requiresCompatibilities)]

/-- `update_service` (manager.py lines 220-257, duplicated verbatim in
boto3_helpers.py lines 109-146): builds the kwargs with `taskDefinition`
unconditionally present, re-assigns the same key when `taskdef_id` is
truthy, and invokes the update operation. -/
def update_service (env : Env) (service_name : PyVal) (cluster_id : PyVal)
    (taskdef_id : PyVal) (force_new_deployment : Bool) : M Boto3Result :=
  let base := [("cluster", cluster_id), ("service", service_name),
               ("taskDefinition", taskdef_id),
               ("forceNewDeployment", .vbool force_new_deployment)]
  let new_service_definitions :=
    if taskdef_id.truthy then dset base "taskDefinition" taskdef_id else base
  invokeApi env .update_service new_service_definitions

/-- `_task_wait` (manager.py lines 589-624) with its default delay and
attempt budget; the waiter object itself belongs to the oracle. -/
def _task_wait (env : Env) (cluster : PyVal) (task_arn : PyVal) :
    M Boto3Result :=
  invokeApi env .waiter_wait
    [("cluster", cluster), ("tasks", .vlist [task_arn]),
     ("WaiterConfig",
      .vdict [("Delay", .vint 15), ("MaxAttempts", .vint 40)])]

/-- The task fields selected into a health-check status record
(manager.py lines 379-392). -/
def taskStatusKeys : List String :=
  ["taskArn", "taskDefinitionArn", "connectivity", "healthStatus",
   "desiredStatus", "lastStatus", "startedAt", "stopCode", "stoppedReason",
   "executionStoppedAt", "failures"]

/-- The container fields selected into a health-check status record
(manager.py lines 398-406). -/
def containerStatusKeys : List String :=
  ["containerArn", "image", "lastStatus", "exitCode", "reason",
   "healthStatus"]

/-- The status-report construction of `_healthcheck` (manager.py lines
373-414): one record per described task, datetimes coerced via
`isoformat()`, each with its nested per-container records.  This part of the
handler performs no remote calls and no logging, so it is a pure
computation. -/
def taskStatusReport (rbody : PyVal) : Except Exn Boto3Result := do
  let tasksVal ← pyIndex rbody "tasks"
  let tasks ← pyIter tasksVal
  let task_statuses ← tasks.mapM (fun task => do
    let task_status ← taskStatusKeys.mapM (fun k => do
      let v ← task.get2 k .vnone
      pure (k, match v with
               | .vdatetime s => PyVal.vstr s
               | w => w))
    let containersVal ← pyIndex task "containers"
    let containers ← pyIter containersVal
    let container_statuses ← containers.mapM (fun c => do
      let kvs ← containerStatusKeys.mapM (fun k => do
        let v ← c.get2 k .vnone
        pure (k, v))
      pure (PyVal.vdict kvs))
    pure (PyVal.vdict
      (dset task_status "containers" (.vlist container_statuses))))
  Boto3Result.init (some (.vdict [("tasks", .vlist task_statuses)])) none

/-- The `task_filters` comprehension of `_healthcheck` (manager.py lines
328-332): the truthy values of the three filter keys, in that order. -/
def healthcheckTaskFilters (body : List (String × PyVal)) :
    List (String × PyVal) :=
  ["cluster", "family", "serviceName"].filterMap (fun k =>
    if (pygetD body k).truthy then some (k, pygetD body k) else none)

/-- `_healthcheck` (manager.py lines 297-414): validate the cluster key,
list running then stopped tasks, de-duplicate the union of the two ARN
lists, describe them in one batched call, and normalize the result. -/
def _healthcheck (env : Env) (body : List (String × PyVal)) : M Boto3Result := do
  if ¬ (pygetD body "cluster").isStr then
    match missingRequiredKeys ["cluster"] (pyKeys body) with
    | .error e => throwM e
    | .ok err_msg => do
        logDict err_msg
        liftExc (Boto3Result.init none (some (.keyError err_msg)))
  else do
    let task_filters := healthcheckTaskFilters body
    let filtersRunning := dset task_filters "desiredStatus" (.vstr "RUNNING")
    let r_running ← invokeApi env .list_tasks filtersRunning
    if r_running.errTruthy then pure r_running
    else do
      let filtersStopped :=
        dset filtersRunning "desiredStatus" (.vstr "STOPPED")
      let r_stopped ← invokeApi env .list_tasks filtersStopped
      if r_stopped.errTruthy then pure r_stopped
      else do
        let runningArns ← liftExc (r_running.body.get2 "taskArns" (.vlist []))
        let stoppedArns ← liftExc (r_stopped.body.get2 "taskArns" (.vlist []))
        let task_arns ←
          liftExc (do pyListSet (← pyAdd runningArns stoppedArns))
        if task_arns.truthy then do
          let r ← invokeApi env .describe_tasks
            [("cluster", pygetD body "cluster"), ("tasks", task_arns)]
          if r.errTruthy then pure r
          else liftExc (taskStatusReport r.body)
        else
          liftExc (Boto3Result.init
            (some (.vdict
              [("msg",
                .vstr "No task ARNs were found with the given criteria."),
               ("data", .vnone)])) none)

/-- One fixed enumeration of the set literal
`\x7b"service_id", "cluster_id"\x7d` (manager.py line 449).  CPython's set
iteration order is unspecified; it only affects the ordering of names inside
one error-message string, which no caller inspects. -/
def runtaskRequiredKeys : List String := ["service_id", "cluster_id"]

/-- `sorted(\x7b"service_id", "cluster_id"\x7d)`. -/
def runtaskRequiredKeysSorted : List String := ["cluster_id", "service_id"]

/-- The `validated` comprehension of `_runtask` (manager.py lines 450-455):
a required key maps to `body.get(key) or ""` when that value is a truthy
string. -/
def runtaskValidated (body : List (String × PyVal)) :
    List (String × PyVal) :=
  runtaskRequiredKeys.filterMap (fun k =>
    let value := pyOr (pygetD body k) (.vstr "")
    if value.truthy ∧ value.isStr then some (k, value) else none)

/-- The tail of `_runtask` after the task definition has been chosen
(manager.py lines 530-586): run the task, wait for it to stop, re-describe
it, and assemble the success payload (or the failure report). -/
def runtaskLaunch (env : Env) (cluster_id netconf target_taskdef_arn : PyVal) :
    M Boto3Result := do
  let r ← invokeApi env .run_task
    [("cluster", cluster_id), ("taskDefinition", target_taskdef_arn),
     ("launchType", .vstr "FARGATE"), ("networkConfiguration", netconf),
     ("startedBy", .vstr "lambda")]
  if r.errTruthy then pure r
  else do
    let tasks ← liftExc (pyIndex r.body "tasks")
    let task0 ← liftExc (pyIndexNat tasks 0)
    let new_task_arn ← liftExc (pyIndex task0 "taskArn")
    logM "Running task" new_task_arn "info"
    let r ← _task_wait env cluster_id new_task_arn
    if r.errTruthy then pure r
    else do
      logM "Finished waiting for task execution" new_task_arn "info"
      let r ← invokeApi env .describe_tasks
        [("cluster", cluster_id), ("tasks", .vlist [new_task_arn])]
      if r.errTruthy then pure r
      else do
        let failures ← liftExc (pyIndex r.body "failures")
        if failures.truthy then
          liftExc (Boto3Result.init none (some (.exception
            [.vstr ("ecs.describeTask call returned errors on " ++
              pyStr new_task_arn),
             failures])))
        else do
          let tasks2 ← liftExc (pyIndex r.body "tasks")
          let task_description ← liftExc (pyIndexNat tasks2 0)
          let containers ← liftExc (pyIndex task_description "containers")
          let container_description ← liftExc (pyIndexNat containers 0)
          let items ← liftExc (pyItems task_description)
          let filtered := items.filter (fun kv =>
            ["stopCode", "stoppedReason", "startedBy", "taskArn"].contains
              kv.1)
          let exitCode ← liftExc (pyIndex container_description "exitCode")
          let task_status := dset filtered "exitCode" exitCode
          liftExc (Boto3Result.init (some (.vdict
            [("ResponseMetadata", .vdict [("HTTPStatusCode", .vint 200)]),
             ("taskArn", new_task_arn),
             ("taskDefinitionArn", target_taskdef_arn),
             ("taskStatus", .vdict task_status)])) none)

/-- `_runtask` (manager.py lines 417-586): validate the entrypoint type,
the required identifiers and the entrypoint/container pairing, describe the
target service, optionally register a modified task definition, then launch
and supervise the task (`runtaskLaunch` is the common tail after the task
definition has been chosen). -/
def _runtask (env : Env) (body : List (String × PyVal)) : M Boto3Result := do
  let taskdef_entrypoint := pyOr (pygetD body "entrypoint") (.vstr "")
  if ¬ taskdef_entrypoint.isStr then do
    let err_msg := PyVal.vdict
      [("msg", .vstr "TypeError"),
       ("data", .vstr "'entrypoint' key must be of type string"),
       ("level", .vstr "critical")]
    logDict err_msg
    liftExc (Boto3Result.init none (some (.typeError err_msg)))
  else do
    let validated := runtaskValidated body
    let missing_required_keys := runtaskRequiredKeysSorted.filter (fun k =>
      ¬ (validated.map Prod.fst).contains k)
    if ¬ missing_required_keys.isEmpty then
      match missingRequiredKeys runtaskRequiredKeys (pyKeys body) with
      | .error e => throwM e
      | .ok err_msg => do
          logDict err_msg
          liftExc (Boto3Result.init none (some (.keyError err_msg)))
    else if (dget body "entrypoint").isSome ∧
        (dget body "container_id").isNone then do
      let err_msg := PyVal.vdict
        [("msg", .vstr "container_id required to process entrypoint"),
         ("data", .vstr
           ("when giving an entrypoint, container_id is required. " ++
            "found keys: " ++ pyStr (.vlist ((pyKeys body).map .vstr)))),
         ("level", .vstr "critical")]
      logDict err_msg
      liftExc (Boto3Result.init none (some (.keyError err_msg)))
    else do
      let service_id ← liftExc (pyIndex (.vdict validated) "service_id")
      let cluster_id ← liftExc (pyIndex (.vdict validated) "cluster_id")
      let r ← invokeApi env .describe_services
        [("cluster", cluster_id), ("services", .vlist [service_id])]
      if r.errTruthy then pure r
      else do
        let services ← liftExc (pyIndex r.body "services")
        let svc0 ← liftExc (pyIndexNat services 0)
        let netconf ← liftExc (pyIndex svc0 "networkConfiguration")
        let svc_taskdef_arn ← liftExc (pyIndex svc0 "taskDefinition")
        if taskdef_entrypoint.truthy then do
          let container_id := pyOr (pygetD body "container_id") (.vstr "")
          let r ← invokeApi env .describe_task_definition
            [("taskDefinition", svc_taskdef_arn)]
          if r.errTruthy then pure r
          else do
            let service_taskdef ← liftExc (pyIndex r.body "taskDefinition")
            let taskdef_family ← liftExc (pyIndex service_taskdef "family")
            -- the kwargs dict of the register call is evaluated before
            -- invoke is entered, so an exception raised here propagates
            -- uncaught out of the handler
            let cdef ← _generate_container_definition service_taskdef
              container_id taskdef_entrypoint
            let executionRoleArn ←
              liftExc (pyIndex service_taskdef "executionRoleArn")
            let taskRoleArn ← liftExc (pyIndex service_taskdef "taskRoleArn")
            let networkMode ← liftExc (pyIndex service_taskdef "networkMode")
            let cpu ← liftExc (pyIndex service_taskdef "cpu")
            let memory ← liftExc (pyIndex service_taskdef "memory")
            let requiresCompatibilities ←
              liftExc (pyIndex service_taskdef "requiresCompatibilities")
            let r ← invokeApi env .register_task_definition
              [("family", taskdef_family),
               ("containerDefinitions", .vlist [cdef]),
               ("executionRoleArn", executionRoleArn),
               ("taskRoleArn", taskRoleArn),
               ("networkMode", networkMode),
               ("cpu", cpu),
               ("memory", memory),
               ("requiresCompatibilities", requiresCompatibilities)]
            if r.errTruthy then pure r
            else do
              let tdv ← liftExc (pyIndex r.body "taskDefinition")
              let target_taskdef_arn ← liftExc (pyIndex tdv
                "taskDefinitionArn")
              logM "Created task definition" target_taskdef_arn "info"
              runtaskLaunch env cluster_id netconf target_taskdef_arn
        else
          runtaskLaunch env cluster_id netconf svc_taskdef_arn

/-- A monadic filter over `Except`, evaluating the predicate on each
element in order (the evaluation order of a Python list/`filter`
traversal). -/
def exceptFilterM (f : PyVal → Except Exn Bool) :
    List PyVal → Except Exn (List PyVal)
  | [] => .ok []
  | x :: rest => do
      let b ← f x
      let more ← exceptFilterM f rest
      .ok (if b then x :: more else more)

/-- The per-parameter loop of `_map_ecs_ssm_parameters` (manager.py lines
644-663): fetch each parameter's tags (short-circuiting on a remote error),
attach them, and record the `ENV_VAR_NAME` tag value when present. -/
def mapParamsLoop (env : Env) :
    List PyVal → List PyVal → M (Sum Boto3Result (List PyVal))
  | [], acc => pure (.inr acc.reverse)
  | parameter :: rest, acc => do
      let nameV ← liftExc (parameter.get2 "Name" .vnone)
      let r ← invokeApi env .list_tags_for_resource
        [("ResourceType", .vstr "Parameter"), ("ResourceId", nameV)]
      if r.errTruthy then pure (.inl r)
      else do
        let tagList ← liftExc (r.body.get2 "TagList" (.vlist []))
        let p1 ← liftExc (pySetItem parameter "Tags" tagList)
        let tags ← liftExc (pyIter tagList)
        let tag_list ← liftExc (exceptFilterM (fun tag => do
          let k ← tag.get2 "Key" .vnone
          pure (k = PyVal.vstr "ENV_VAR_NAME")) tags)
        let p2 ← match tag_list with
          | t0 :: _ => do
              let v ← liftExc (t0.get2 "Value" .vnone)
              liftExc (pySetItem p1 "ENV_VAR_NAME" v)
          | [] => pure p1
        mapParamsLoop env rest (p2 :: acc)

/-- The final comprehension of `_map_ecs_ssm_parameters` (manager.py lines
665-672), over the parameters as mutated by the loop. -/
def envVarMapOf : List PyVal → Except Exn (List PyVal)
  | [] => .ok []
  | p :: rest => do
      let guard ← p.get2 "ENV_VAR_NAME" .vnone
      if guard.truthy then do
        let nm ← p.get2 "ENV_VAR_NAME" (.vstr "")
        let vf ← p.get2 "Name" (.vstr "")
        let more ← envVarMapOf rest
        .ok (.vdict [("name", nm), ("valueFrom", vf)] :: more)
      else
        envVarMapOf rest

/-- `_map_ecs_ssm_parameters` (manager.py lines 627-674). -/
def _map_ecs_ssm_parameters (env : Env) (stored_parameters : List PyVal) :
    M Boto3Result := do
  match ← mapParamsLoop env stored_parameters [] with
  | .inl r => pure r
  | .inr params => do
      let env_var_map ← liftExc (envVarMapOf params)
      liftExc (Boto3Result.init
        (some (.vdict [("map", .vlist env_var_map)])) none)

/-- The compilation of the secret patterns (manager.py line 725): compiling
a non-string raises `TypeError`, which the surrounding `except re.error`
does not catch. -/
def compileEngines (env : Env) :
    List PyVal → Except Exn (List (String → Bool))
  | [] => .ok []
  | p :: rest => do
      let engine ← match p with
        | .vstr s => env.re_compile s
        | _ => .error (.typeError
            (.vstr "first argument must be string or bytes-like object"))
      let more ← compileEngines env rest
      .ok (engine :: more)

/-- `any(engine.fullmatch(parameter.get("Name")) for engine in engines)`
(manager.py lines 738-741): with no engines nothing is evaluated; otherwise
a non-string name raises `TypeError` from `fullmatch`. -/
def paramMatches (engines : List (String → Bool)) (parameter : PyVal) :
    Except Exn Bool := do
  let nameV ← parameter.get2 "Name" .vnone
  match engines with
  | [] => pure false
  | _ =>
      match nameV with
      | .vstr s => pure (engines.any (fun engine => engine s))
      | _ => .error (.typeError
          (.vstr "expected string or bytes-like object"))

/-- The paginated parameter harvest (manager.py lines 733-742):
`page.get("Parameters")` has no default, so a page without that key yields
`None`, and iterating it raises `TypeError`. -/
def collectParams (engines : List (String → Bool)) :
    List PyVal → Except Exn (List PyVal)
  | [] => .ok []
  | page :: rest => do
      let paramsV ← page.get2 "Parameters" .vnone
      let params ← pyIter paramsV
      let kept ← exceptFilterM (paramMatches engines) params
      let restKept ← collectParams engines rest
      .ok (kept ++ restKept)

/-- The secrets preamble of `_deploy` (manager.py lines 721-748): `.inl` is
an early `return` of a fault `Boto3Result`, `.inr none` means no truthy
secrets value was given, `.inr (some m)` carries the computed
`secrets_map`. -/
def secretsStage (env : Env) (secrets : PyVal) :
    M (Sum Boto3Result (Option PyVal)) := do
  if secrets.truthy ∧ ¬ secrets.isList then do
    let r ← liftExc (Boto3Result.init none
      (some (.typeError (.vstr "secrets value must be of type list"))))
    pure (.inl r)
  else if secrets.truthy ∧ secrets.isList then do
    let patterns ← liftExc (pyIter secrets)
    match compileEngines env patterns with
    | .error (.reError m) => do
        -- except re.error as e: return Boto3Result(exc=e)
        let r ← liftExc (Boto3Result.init none (some (.reError m)))
        pure (.inl r)
    | .error e => throwM e
    | .ok engines => do
        let ssm_parameters ← liftExc (collectParams engines env.ssm_pages)
        let r ← _map_ecs_ssm_parameters env ssm_parameters
        if r.errTruthy then pure (.inl r)
        else do
          let m ← liftExc (pyIndex r.body "map")
          pure (.inr (some m))
  else
    pure (.inr none)

/-- The edit of one container definition (manager.py lines 778-782).
`secrets_map` is always bound when `secrets` is truthy: `_deploy` validated
that a truthy secrets value is a list and computed the map before the
loop. -/
def editOneContainerDef (secrets : PyVal) (secrets_map : Option PyVal)
    (image : PyVal) (containerdef : PyVal) : Except Exn PyVal := do
  let cd1 ← if secrets.truthy then
      pyUpdateKV containerdef "secrets" (secrets_map.getD .vnone)
    else pure containerdef
  if image.truthy then pyUpdateKV cd1 "image" image else pure cd1

/-- The container-definition loop over a deep copy of the described task
definition (manager.py lines 774-782).  Values are immutable here, so the
deep copy is the value itself and the in-place mutation rebuilds the
structure; when `containerDefinitions` is not a list the iteration only
touches immutable items (an edit raises, no edit leaves the task definition
unchanged). -/
def editContainerDefs (secrets : PyVal) (secrets_map : Option PyVal)
    (image : PyVal) (taskdef : PyVal) : Except Exn PyVal := do
  let cdefsV ← pyIndex taskdef "containerDefinitions"
  match cdefsV with
  | .vlist cds => do
      let edited ← cds.mapM (editOneContainerDef secrets secrets_map image)
      match taskdef with
      | .vdict kvs =>
          .ok (.vdict (dset kvs "containerDefinitions" (.vlist edited)))
      | _ => .error (.typeError (.vstr "object is not subscriptable"))
  | other => do
      let items ← pyIter other
      let _ ← items.mapM (editOneContainerDef secrets secrets_map image)
      .ok taskdef

/-- The body of the per-service loop of `_deploy` (manager.py lines
766-821): describe the task definition, apply the edits, register a new
revision only when the edited definition differs, then update the service
with a forced new deployment.  `.inl` is an early `return`; `.inr` carries
the updated service's ARN and the task-definition ARN that was used. -/
def deployServiceStep (env : Env) (cluster_id secrets image : PyVal)
    (secrets_map : Option PyVal) (service : PyVal) :
    M (Sum Boto3Result (PyVal × PyVal)) := do
  let taskdef_arn ← liftExc (pyIndex service "taskDefinition")
  let r ← invokeApi env .describe_task_definition
    [("taskDefinition", taskdef_arn)]
  if r.errTruthy then pure (.inl r)
  else do
    let original ← liftExc (pyIndex r.body "taskDefinition")
    let taskdef ← liftExc (editContainerDefs secrets secrets_map image
      original)
    let rr ← (if taskdef ≠ original then do
        let cdefs ← liftExc (pyIndex taskdef "containerDefinitions")
        let execRole ← liftExc (pyIndex taskdef "executionRoleArn")
        logM "Re-deploying service with updated container definitions"
          (.vdict [("taskdef", taskdef), ("service_containerdefs", cdefs),
                   ("executionRoleArn", execRole)]) "info"
        let r2 ← register_task_definition env taskdef
        if r2.errTruthy then pure (Sum.inl r2)
        else do
          let tdv ← liftExc (pyIndex r2.body "taskDefinition")
          let arnRegistered ← liftExc (pyIndex tdv "taskDefinitionArn")
          logM "Registered task definition" arnRegistered "info"
          pure (Sum.inr r2)
      else pure (Sum.inr r))
    match rr with
    | .inl rerr => pure (.inl rerr)
    | .inr rGood => do
        let tdv ← liftExc (pyIndex rGood.body "taskDefinition")
        let new_taskdef_arn ← liftExc (pyIndex tdv "taskDefinitionArn")
        let sname ← liftExc (pyIndex service "serviceName")
        let r3 ← update_service env sname cluster_id new_taskdef_arn true
        if r3.errTruthy then pure (.inl r3)
        else do
          let sv ← liftExc (pyIndex r3.body "service")
          let service_arn ← liftExc (pyIndex sv "serviceArn")
          logM "Updated service" service_arn "info"
          pure (.inr (service_arn, new_taskdef_arn))

/-- The `for service in target_services` loop of `_deploy`, accumulating
the updated-service ARNs and threading the last `new_taskdef_arn` binding
(`none` while the name is still unassigned). -/
def deployLoop (env : Env) (cluster_id secrets image : PyVal)
    (secrets_map : Option PyVal) :
    List PyVal → List PyVal → Option PyVal →
    M (Sum Boto3Result (List PyVal × Option PyVal))
  | [], updated, lastArn => pure (.inr (updated.reverse, lastArn))
  | service :: rest, updated, _lastArn => do
      match ← deployServiceStep env cluster_id secrets image secrets_map
          service with
      | .inl r => pure (.inl r)
      | .inr (service_arn, new_taskdef_arn) =>
          deployLoop env cluster_id secrets image secrets_map rest
            (service_arn :: updated) (some new_taskdef_arn)

/-- `_deploy` (manager.py lines 677-828): validate the identifiers, run the
secrets preamble, describe and filter the requested services, run the
per-service loop, and assemble the success payload.  When no service was
updated,  the final payload reads the never-assigned `new_taskdef_arn`
local, raising `UnboundLocalError` (manager.py line 826). -/
def _deploy (env : Env) (body : List (String × PyVal)) : M Boto3Result := do
  let cluster_id := pygetD body "cluster_id"
  let service_ids := pygetD body "service_ids"
  let image := pygetD body "image"
  let secrets := pygetD body "secrets"
  if cluster_id = .vnone ∨ service_ids = .vnone then
    match missingRequiredKeys ["cluster_id", "service_ids"] (pyKeys body) with
    | .error e => throwM e
    | .ok err_msg => do
        logDict err_msg
        liftExc (Boto3Result.init none (some (.keyError err_msg)))
  else do
    match ← secretsStage env secrets with
    | .inl r => pure r
    | .inr secrets_map => do
        let r ← invokeApi env .describe_services
          [("cluster", cluster_id), ("services", service_ids)]
        if r.errTruthy then pure r
        else do
          let described_services ← liftExc (pyIndex r.body "services")
          let svcList ← liftExc (pyIter described_services)
          let target_services ← liftExc (exceptFilterM (fun svc => do
            let nm ← pyIndex svc "serviceName"
            let b1 ← pyMem nm service_ids
            if b1 then pure true
            else do
              let arn ← pyIndex svc "serviceArn"
              pyMem arn service_ids) svcList)
          match ← deployLoop env cluster_id secrets image secrets_map
              target_services [] none with
          | .inl r => pure r
          | .inr (updated_services, lastArn) =>
              match lastArn with
              | none => throwM (.unboundLocalError "new_taskdef_arn")
              | some new_taskdef_arn =>
                  liftExc (Boto3Result.init (some (.vdict
                    [("ResponseMetadata",
                      .vdict [("HTTPStatusCode", .vint 200)]),
                     ("UpdatedServiceArns", .vlist updated_services),
                     ("NewTaskdefArn", new_taskdef_arn)])) none)

/-- The keys of `__DISPATCH__` (manager.py lines 831-835), in the insertion
order the source gives. -/
def dispatchKeys : List String := ["runtask", "deploy", "healthcheck"]

/-- `__DISPATCH__` lookup. -/
def dispatchLookup :
    String → Option (Env → List (String × PyVal) → M Boto3Result)
  | "runtask" => some _runtask
  | "deploy" => some _deploy
  | "healthcheck" => some _healthcheck
  | _ => none

/-- `command not in __DISPATCH__` (manager.py line 869): dict-key membership
hashes the command, so an unhashable command raises `TypeError`. -/
def commandNotInDispatch (command : PyVal) : Except Exn Bool :=
  match command with
  | .vlist _ => .error (.typeError (.vstr "unhashable type"))
  | .vdict _ => .error (.typeError (.vstr "unhashable type"))
  | .vstr s => .ok (¬ dispatchKeys.contains s)
  | _ => .ok true

/-- `response.update(result.error or result.body)` (manager.py line 882):
merging a non-mapping argument raises `TypeError`. -/
def pyUpdate (kvs : List (String × PyVal)) (arg : PyVal) :
    Except Exn (List (String × PyVal)) :=
  match arg with
  | .vdict more => .ok (more.foldl (fun acc p => dset acc p.1 p.2) kvs)
  | _ => .error (.typeError (.vstr "object is not iterable"))

/-- The unrecognized-command branch of `lambda_handler` (manager.py lines
869-876). -/
def unknownCommandResponse (command : PyVal) : PyVal :=
  .vdict
    [("msg", .vstr ("Command not recognized: '" ++ pyStr command ++ "'.")),
     ("data", .vstr ("Must be one of: " ++
       pyStr (.vlist (dispatchKeys.map .vstr)))),
     ("level", .vstr "critical")]

/-- `lambda_handler` (manager.py lines 838-893): log the event, pull
`command` and `body` (the `try` covers both lookups and catches only
`KeyError`), reject unknown commands, dispatch, merge the handler's error or
body into the response envelope, and return the logged wrapper.  A
non-mapping body raises when the dispatched handler first calls
`body.get`. -/
def lambda_handler (env : Env) (event : PyVal) : M PyVal := do
  logM "event received" event "info"
  let cb : Except Exn (PyVal × PyVal) := do
    let command ← pyIndex event "command"
    let b ← pyIndex event "body"
    pure (command, b)
  match cb with
  | .error (.keyError _) => do
      let keys ← liftExc (match event with
        | .vdict kvs => .ok (pyKeys kvs)
        | _ => .error (.typeError (.vstr "object is not iterable")))
      match missingRequiredKeys ["command", "body"] keys with
      | .error e => throwM e
      | .ok err_msg => do
          logDict err_msg
          pure err_msg
  | .error e => throwM e
  | .ok (command, b) => do
      match ← liftExc (commandNotInDispatch command) with
      | true => do
          let err_msg := unknownCommandResponse command
          logDict err_msg
          pure err_msg
      | false => do
          let handler := match command with
            | .vstr s => (dispatchLookup s).getD _runtask
            | _ => _runtask
          let result ← match b with
            | .vdict kvs => handler env kvs
            | _ => throwM (.attributeError "get")
          let response₀ : List (String × PyVal) :=
            [("request_payload",
              .vdict [("command", command), ("body", b)])]
          let merged ←
            liftExc (pyUpdate response₀ (pyOr result.error result.body))
          let response := PyVal.vdict merged
          let data := PyVal.vdict
            [("response", response),
             ("duration", .vstr (env.duration ++ " ms"))]
          logM "response received" data "info"
          pure (.vdict [("msg", .vstr "response received"), ("data", data)])

/-! ### Concrete environments used by counterexamples and witnesses -/

/-- A trivial oracle: every remote call succeeds with an empty payload. -/
def envOk : Env :=
  ⟨fun _ _ => .ok (.vdict []), fun _ => .ok (fun _ => false), [], "0.0"⟩

/-- An oracle whose `describe_services` reports no services at all, so a
deploy matches zero services. -/
def envDeployNoMatch : Env :=
  ⟨fun sel _ =>
    match sel with
    | .describe_services => .ok (.vdict
        [("ResponseMetadata", .vdict [("HTTPStatusCode", .vint 200)]),
         ("services", .vlist [])])
    | _ => .ok (.vdict []),
   fun _ => .ok (fun _ => false), [], "0.0"⟩

/-- An oracle for the health check whose running/stopped task listings
overlap on the ARN "b". -/
def envHC : Env :=
  ⟨fun sel kwargs =>
    match sel with
    | .list_tasks =>
        if dget kwargs "desiredStatus" = some (.vstr "RUNNING") then
          .ok (.vdict [("taskArns", .vlist [.vstr "a", .vstr "b"])])
        else
          .ok (.vdict [("taskArns", .vlist [.vstr "b", .vstr "c"])])
    | _ => .ok (.vdict []),
   fun _ => .ok (fun _ => false), [], "0.0"⟩

/-- The described task definition used by the no-change deploy scenario:
its single container definition already carries the deployed image. -/
def tdC7 : PyVal :=
  .vdict
    [("family", .vstr "fam"),
     ("containerDefinitions",
      .vlist [.vdict [("image", .vstr "img:1"), ("name", .vstr "web")]]),
     ("taskDefinitionArn", .vstr "arn:taskdef:1")]

/-- An oracle for a deploy whose requested image edit leaves the task
definition unchanged. -/
def envC7 : Env :=
  ⟨fun sel _ =>
    match sel with
    | .describe_services => .ok (.vdict
        [("ResponseMetadata", .vdict [("HTTPStatusCode", .vint 200)]),
         ("services", .vlist
           [.vdict [("serviceName", .vstr "svc"),
                    ("serviceArn", .vstr "arn:svc"),
                    ("taskDefinition", .vstr "arn:taskdef:1")]])])
    | .describe_task_definition => .ok (.vdict
        [("ResponseMetadata", .vdict [("HTTPStatusCode", .vint 200)]),
         ("taskDefinition", tdC7)])
    | .update_service => .ok (.vdict
        [("ResponseMetadata", .vdict [("HTTPStatusCode", .vint 200)]),
         ("service", .vdict [("serviceArn", .vstr "arn:svc")])])
    | _ => .ok (.vdict []),
   fun _ => .ok (fun _ => false), [], "0.0"⟩

/-! ## Helper lemmas -/

theorem pyKeys_contains_of_dget_some (kvs : List (String × PyVal))
    (k : String) (v : PyVal) (h : dget kvs k = some v) :
    (pyKeys kvs).contains k = true := by
  induction kvs with
  | nil => simp [dget] at h
  | cons p rest ih =>
      rw [dget] at h
      by_cases hk : p.1 = k
      · simp [pyKeys, List.contains_cons, hk]
      · simp only [hk, if_neg] at h
        · simp [pyKeys, List.contains_cons] at ih ⊢
          exact Or.inr (ih h)

theorem dget_ne_nil (kvs : List (String × PyVal)) (k : String) (v : PyVal)
    (h : dget kvs k = some v) : kvs ≠ [] := by
  intro hnil
  subst hnil
  simp [dget] at h

/-- The `error` property always produces a dict. -/
theorem Boto3Result.error_isDict (r : Boto3Result) :
    r.error.isDict = true := by
  unfold Boto3Result.error
  rcases r.exc with _ | e
  · simp only []
    split
    · rfl
    · split
      · split
        · rfl
        · rfl
      · rfl
  · rfl

/-! ## C2 -/

/-- C2 counterexample: constructing a `Boto3Result` with BOTH a payload and
a fault does not signal an input-validation fault — it succeeds, storing
both.  The guard tests "neither", not "exactly one". -/
theorem C2_counterexample :
    Boto3Result.init (some (.vdict [("a", .vint 1)]))
        (some (.valueError "boom"))
      = .ok ⟨some (.vdict [("a", .vint 1)]), some (.valueError "boom")⟩ := by
  decide

/-- C2 (amended): constructing a `Boto3Result` requires AT LEAST one of
\x7bresponse payload, fault\x7d: with neither argument construction signals
the input-validation fault; with a payload alone, a fault alone, or both
together, construction succeeds. -/
theorem C2_amended :
    (Boto3Result.init none none =
      .error (.boto3InputError "At least one argument is required")) ∧
    (∀ kvs : List (String × PyVal),
      Boto3Result.init (some (.vdict kvs)) none =
        .ok ⟨some (.vdict kvs), none⟩) ∧
    (∀ e : Exn,
      Boto3Result.init none (some e) = .ok ⟨none, some e⟩) ∧
    (∀ (kvs : List (String × PyVal)) (e : Exn),
      Boto3Result.init (some (.vdict kvs)) (some e) =
        .ok ⟨some (.vdict kvs), some e⟩) := by
  refine ⟨by decide, ?_, ?_, ?_⟩
  · intro kvs
    simp [Boto3Result.init, PyVal.isDict]
  · intro e
    simp [Boto3Result.init]
  · intro kvs e
    simp [Boto3Result.init, PyVal.isDict]

/-! ## C3 -/

/-- C3 counterexample: a callable that returns normally with a truthy
non-mapping value makes `invoke` raise `Boto3InputError` out of its `else`
branch instead of returning a `Boto3Result` — the claim's "if the call
returns normally, invoke returns a Result" is false for such callables. -/
theorem C3_counterexample :
    invoke (fun _ => .ok (.vlist [.vint 1])) []
      = .error (.boto3InputError "At least one argument is required") := by
  decide

/-- C3 (amended): if the call raises, `invoke` returns a Result whose fault
is set and whose body is the empty mapping; if the call returns normally
with a mapping or any falsy value, `invoke` returns a Result with no fault
whose body equals the returned payload (the empty mapping when the value
was falsy); a truthy non-mapping return instead raises `Boto3InputError`
out of `invoke`.  The last two conjuncts relate the stored response to the
`body` attribute. -/
theorem C3_amended (f : List (String × PyVal) → Except Exn PyVal)
    (kwargs : List (String × PyVal)) :
    (invoke f kwargs =
      match f kwargs with
      | .error exc => .ok ⟨none, some exc⟩
      | .ok r =>
          if r.truthy ∧ ¬ r.isDict then
            .error (.boto3InputError "At least one argument is required")
          else .ok ⟨some (pyOr r (.vdict [])), none⟩) ∧
    (∀ e : Exn, (Boto3Result.mk none (some e)).body = .vdict []) ∧
    (∀ r : PyVal, (Boto3Result.mk (some r) none).body = pyOr r (.vdict [])) := by
  refine ⟨?_, fun e => rfl, fun r => rfl⟩
  unfold invoke
  rcases hf : f kwargs with e | r
  · simp [Boto3Result.init]
  · simp only []
    by_cases ht : r.truthy
    · by_cases hd : r.isDict
      · have : (pyOr r (.vdict [])).isDict = true := by
          simp [pyOr, ht, hd]
        simp [Boto3Result.init, this, ht, hd]
      · have : (pyOr r (.vdict [])).isDict = false := by
          simp [pyOr, ht, hd]
        simp [Boto3Result.init, this, ht, hd]
    · have : (pyOr r (.vdict [])) = .vdict [] := by simp [pyOr, ht]
      simp [Boto3Result.init, this, ht, PyVal.isDict]

/-! ## C4 -/

/-- C4 counterexample: a `Boto3Result` constructed from a payload that has
no `ResponseMetadata` field has `status = some "None"` — the string "None",
not an absent status as the claim states. -/
theorem C4_counterexample :
    Boto3Result.init (some (.vdict [("foo", .vstr "bar")])) none =
      .ok ⟨some (.vdict [("foo", .vstr "bar")]), none⟩ ∧
    (Boto3Result.mk (some (.vdict [("foo", .vstr "bar")])) none).status
      = some "None" ∧
    (Boto3Result.mk (some (.vdict [("foo", .vstr "bar")])) none).status
      ≠ none := by
  refine ⟨by decide, by decide, by decide⟩

/-- C4 (amended): with a payload whose nested
`ResponseMetadata.HTTPStatusCode` field is present, `status` is that code
rendered as a string; when the nested field is absent the rendered lookup
result is `None`, so `status` is the STRING "None" (present, not absent);
constructed from a fault only, `status` is absent. -/
theorem C4_amended :
    (∀ (kvs md : List (String × PyVal)) (c : PyVal),
      dget kvs "ResponseMetadata" = some (.vdict md) →
      dget md "HTTPStatusCode" = some c →
      (Boto3Result.mk (some (.vdict kvs)) none).status = some (pyStr c)) ∧
    (∀ kvs : List (String × PyVal),
      dget kvs "ResponseMetadata" = none →
      (Boto3Result.mk (some (.vdict kvs)) none).status = some "None") ∧
    (∀ e : Exn, (Boto3Result.mk none (some e)).status = none) := by
  refine ⟨?_, ?_, fun e => rfl⟩
  · intro kvs md c h1 h2
    simp [Boto3Result.status, PyVal.get2, h1, h2, pygetD, Except.bind,
      Except.toOption]
  · intro kvs h1
    simp [Boto3Result.status, PyVal.get2, h1, pygetD, pyStr, pyRepr,
      Except.bind, Except.toOption, dget]

/-- C4 witness. -/
theorem C4_witness :
    (Boto3Result.mk
        (some (.vdict [("ResponseMetadata",
          .vdict [("HTTPStatusCode", .vint 200)])])) none).status
      = some "200" ∧
    (Boto3Result.mk (some (.vdict [("x", .vint 3)])) none).status
      = some "None" ∧
    (Boto3Result.mk none (some (.valueError "v"))).status = none := by
  refine ⟨?_, ?_, ?_⟩
  · exact C4_amended.1 [("ResponseMetadata",
      .vdict [("HTTPStatusCode", .vint 200)])]
      [("HTTPStatusCode", .vint 200)] (.vint 200) (by decide) (by decide)
  · exact C4_amended.2.1 [("x", .vint 3)] (by decide)
  · exact C4_amended.2.2 (.valueError "v")

/-! ## C8 -/

/-- C8: when `describe_services` reports no matching services, the deploy
loop never runs, the `new_taskdef_arn` local is never assigned, and
`_deploy` raises `UnboundLocalError` while building the success payload —
instead of returning the success Result with an empty updated-services list
that the claim describes. -/
theorem C8_unbound_local :
    (_deploy envDeployNoMatch
        [("cluster_id", .vstr "c"), ("service_ids", .vlist [.vstr "svc-x"])]).1
      = .error (.unboundLocalError "new_taskdef_arn") := by
  decide

/-! ## C10 -/

/-- C10: every `update_service` run issues exactly one remote update call,
and its argument mapping always contains the `taskDefinition` key bound to
the given `taskdef_id` — including `taskdef_id = None`, because the key is
set unconditionally and the conditional re-assignment never removes it. -/
theorem C10_update_service_taskdef_key (env : Env)
    (service_name cluster_id taskdef_id : PyVal) (force : Bool) :
    (update_service env service_name cluster_id taskdef_id force).2.calls.map
        (fun c => (c.sel, dget c.kwargs "taskDefinition"))
      = [(.update_service, some taskdef_id)] := by
  unfold update_service invokeApi
  by_cases h : taskdef_id.truthy <;>
    simp [h, dset, dget, recordCall, liftExc, Bind.bind, Trace.append,
      Trace.empty]

theorem M.bind_def {α β : Type} (x : M α) (f : α → M β) :
    x >>= f =
      match x with
      | (Except.ok a, t) =>
          match f a with
          | (r, t') => (r, t.append t')
      | (Except.error e, t) => (Except.error e, t) := rfl

theorem M.pure_def {α : Type} (a : α) :
    (pure a : M α) = (Except.ok a, Trace.empty) := rfl

/-! ## C1 -/

/-- C1 counterexample: for the event
`\x7b"command": "healthcheck", "body": \x7b"cluster": 123\x7b...` the
dispatched handler finds the `cluster` key present but non-string, calls the
missing-keys builder with no actually-missing key, and the resulting
`ValueError` escapes `lambda_handler` — it is not converted into the
returned mapping shape. -/
theorem C1_counterexample :
    (lambda_handler envOk (.vdict
        [("command", .vstr "healthcheck"),
         ("body", .vdict [("cluster", .vint 123)])])).1
      = .error (.valueError "there were no missing keys") := by
  decide

/-! ## C6 -/

/-- C6 counterexample: a run-task body whose entrypoint is a FALSY
non-string (the empty list) is not rejected with a type-mismatch fault:
`body.get("entrypoint") or ""` replaces it by the empty string, the type
check passes, and the handler instead reports the missing required
identifiers with a `KeyError` fault. -/
theorem C6_counterexample :
    ((_runtask envOk [("entrypoint", .vlist [])]).1.map
        (fun r => r.exc.map Exn.typeName)) = .ok (some "KeyError") := by
  decide

/-- C6 (amended): for every run-task body whose entrypoint value is TRUTHY
and not a string, the handler returns the type-mismatch fault with empty
body and the trace holds exactly one log entry, at critical level — and
since this holds for every such body, in particular for bodies that also
lack the required identifiers or a container id, the rejection happens
before those checks. -/
theorem C6_amended (env : Env) (body : List (String × PyVal)) (v : PyVal)
    (hget : dget body "entrypoint" = some v)
    (htruthy : v.truthy = true) (hstr : v.isStr = false) :
    _runtask env body =
      (.ok ⟨none, some (.typeError (.vdict
        [("msg", .vstr "TypeError"),
         ("data", .vstr "'entrypoint' key must be of type string"),
         ("level", .vstr "critical")]))⟩,
       ⟨[], [⟨"TypeError", .vstr "'entrypoint' key must be of type string",
              "critical"⟩]⟩) ∧
    (Boto3Result.mk none (some (.typeError (.vdict
        [("msg", .vstr "TypeError"),
         ("data", .vstr "'entrypoint' key must be of type string"),
         ("level", .vstr "critical")])))).body = .vdict [] := by
  refine ⟨?_, rfl⟩
  unfold _runtask
  simp [pygetD, hget, pyOr, htruthy, hstr, logDict, logM, liftExc,
    Boto3Result.init, M.bind_def, Trace.append, Trace.empty, PyVal.get2,
    dget, pyStr, Option.getD, Except.toOption]

/-- C6 witness, at the spec's own example input
`\x7b"entrypoint": [1, 2, 3]\x7d`. -/
theorem C6_witness :
    _runtask envOk [("entrypoint", .vlist [.vint 1, .vint 2, .vint 3])] =
      (.ok ⟨none, some (.typeError (.vdict
        [("msg", .vstr "TypeError"),
         ("data", .vstr "'entrypoint' key must be of type string"),
         ("level", .vstr "critical")]))⟩,
       ⟨[], [⟨"TypeError", .vstr "'entrypoint' key must be of type string",
              "critical"⟩]⟩) :=
  (C6_amended envOk [("entrypoint", .vlist [.vint 1, .vint 2, .vint 3])]
    (.vlist [.vint 1, .vint 2, .vint 3]) (by decide) (by decide)
    (by decide)).1

theorem pyOr_emptystr_cond (v : PyVal) :
    (((pyOr v (.vstr "")).truthy = true) ∧ ((pyOr v (.vstr "")).isStr = true))
      ↔ ((v.truthy = true) ∧ (v.isStr = true)) := by
  cases h : v.truthy
  · simp only [pyOr, h]
    simp [PyVal.truthy, PyVal.isStr]
  · simp [pyOr, h]

theorem pyKeys_mem_of_dget_some (kvs : List (String × PyVal))
    (k : String) (v : PyVal) (h : dget kvs k = some v) :
    k ∈ pyKeys kvs := by
  induction kvs with
  | nil => simp [dget] at h
  | cons p rest ih =>
      rw [dget] at h
      by_cases hk : p.1 = k
      · simp [pyKeys, hk]
      · simp only [hk, if_neg] at h
        · simp only [pyKeys, List.map, List.mem_cons] at ih ⊢
          exact Or.inr (ih h)

/-! ## C9 -/

/-- C9: when a required key is present but carries an invalid value — an
empty or non-string `service_id`/`cluster_id` for run-task, a non-string
`cluster` for health-check, a `None` `cluster_id`/`service_ids` for deploy —
the handler's own validation rejects the value, but the missing-keys
builder compares against the body's KEYS, finds nothing missing, and raises
`ValueError "there were no missing keys"`, which escapes the handler
instead of becoming a fault Result. -/
theorem C9_invalid_values_raise :
    (∀ (env : Env) (body : List (String × PyVal)) (sv cv : PyVal),
      dget body "service_id" = some sv →
      dget body "cluster_id" = some cv →
      (pyOr (pygetD body "entrypoint") (.vstr "")).isStr = true →
      (sv.truthy = false ∨ sv.isStr = false ∨ cv.truthy = false ∨
        cv.isStr = false) →
      _runtask env body =
        (.error (.valueError "there were no missing keys"), Trace.empty)) ∧
    (∀ (env : Env) (body : List (String × PyVal)) (v : PyVal),
      dget body "cluster" = some v → v.isStr = false →
      _healthcheck env body =
        (.error (.valueError "there were no missing keys"), Trace.empty)) ∧
    (∀ (env : Env) (body : List (String × PyVal)) (c s : PyVal),
      dget body "cluster_id" = some c → dget body "service_ids" = some s →
      (c = .vnone ∨ s = .vnone) →
      _deploy env body =
        (.error (.valueError "there were no missing keys"), Trace.empty)) := by
  have main : ∀ (env : Env) (body : List (String × PyVal)) (sv cv : PyVal),
      dget body "service_id" = some sv →
      dget body "cluster_id" = some cv →
      (pyOr (pygetD body "entrypoint") (.vstr "")).isStr = true →
      ¬ ((sv.truthy = true ∧ sv.isStr = true) ∧
         (cv.truthy = true ∧ cv.isStr = true)) →
      _runtask env body =
        (.error (.valueError "there were no missing keys"), Trace.empty) := by
    intro env body sv cv hsv hcv hent hbad
    have hsk : "service_id" ∈ pyKeys body :=
      pyKeys_mem_of_dget_some body "service_id" sv hsv
    have hck : "cluster_id" ∈ pyKeys body :=
      pyKeys_mem_of_dget_some body "cluster_id" cv hcv
    simp only [pygetD] at hent
    unfold _runtask
    by_cases hs : sv.truthy = true ∧ sv.isStr = true <;>
      by_cases hc : cv.truthy = true ∧ cv.isStr = true
    · exact absurd ⟨hs, hc⟩ hbad
    all_goals
      simp [hent, runtaskValidated, runtaskRequiredKeys,
        runtaskRequiredKeysSorted, List.filterMap, pygetD, hsv, hcv,
        pyOr_emptystr_cond, hs, hc, missingRequiredKeys,
        List.filter, hsk, hck, throwM, M.bind_def]
  refine ⟨?_, ?_, ?_⟩
  · intro env body sv cv hsv hcv hent hbad
    refine main env body sv cv hsv hcv hent ?_
    rintro ⟨⟨h1, h2⟩, ⟨h3, h4⟩⟩
    rcases hbad with h | h | h | h <;> simp_all
  · intro env body v hv hstr
    have hk : "cluster" ∈ pyKeys body :=
      pyKeys_mem_of_dget_some body "cluster" v hv
    unfold _healthcheck
    simp [pygetD, hv, hstr, missingRequiredKeys, List.filter, hk, throwM,
      M.bind_def]
  · intro env body c s hc hs hnone
    have hck : "cluster_id" ∈ pyKeys body :=
      pyKeys_mem_of_dget_some body "cluster_id" c hc
    have hsk : "service_ids" ∈ pyKeys body :=
      pyKeys_mem_of_dget_some body "service_ids" s hs
    unfold _deploy
    rcases hnone with h | h <;>
      simp [pygetD, hc, hs, h, missingRequiredKeys, List.filter, hck, hsk,
        throwM, M.bind_def]

/-- C9 witness: one concrete body per handler. -/
theorem C9_witness :
    (_runtask envOk [("service_id", .vstr ""), ("cluster_id", .vstr "c")] =
      (.error (.valueError "there were no missing keys"), Trace.empty)) ∧
    (_healthcheck envOk [("cluster", .vint 123)] =
      (.error (.valueError "there were no missing keys"), Trace.empty)) ∧
    (_deploy envOk [("cluster_id", .vnone),
        ("service_ids", .vlist [.vstr "s"])] =
      (.error (.valueError "there were no missing keys"), Trace.empty)) := by
  refine ⟨?_, ?_, ?_⟩
  · exact C9_invalid_values_raise.1 envOk
      [("service_id", .vstr ""), ("cluster_id", .vstr "c")]
      (.vstr "") (.vstr "c") (by decide) (by decide) (by decide)
      (Or.inl (by decide))
  · exact C9_invalid_values_raise.2.1 envOk [("cluster", .vint 123)]
      (.vint 123) (by decide) (by decide)
  · exact C9_invalid_values_raise.2.2 envOk
      [("cluster_id", .vnone), ("service_ids", .vlist [.vstr "s"])]
      .vnone (.vlist [.vstr "s"]) (by decide) (by decide)
      (Or.inl (by decide))

/-! ## C5 -/

/-- C5: for every pair of running/stopped listing results, the ARN list
passed to the single batched `describe_tasks` call is the de-duplicated
union of the two listings — each ARN occurs exactly once (the list is
`Nodup`) while keeping exactly the union's elements, even when an ARN
appears in both listings — and no other `describe_tasks` call is issued. -/
theorem C5_healthcheck_dedup (env : Env) (body : List (String × PyVal))
    (cluster : String) (running stopped : List String)
    (rkvs skvs : List (String × PyVal))
    (hb : dget body "cluster" = some (.vstr cluster))
    (hR : env.api .list_tasks
        (dset (healthcheckTaskFilters body) "desiredStatus"
          (.vstr "RUNNING"))
      = .ok (.vdict rkvs))
    (hS : env.api .list_tasks
        (dset (dset (healthcheckTaskFilters body) "desiredStatus"
          (.vstr "RUNNING")) "desiredStatus" (.vstr "STOPPED"))
      = .ok (.vdict skvs))
    (hRe : (Boto3Result.mk (some (.vdict rkvs)) none).errTruthy = false)
    (hSe : (Boto3Result.mk (some (.vdict skvs)) none).errTruthy = false)
    (hRa : dget rkvs "taskArns" = some (.vlist (running.map .vstr)))
    (hSa : dget skvs "taskArns" = some (.vlist (stopped.map .vstr)))
    (hne : running ++ stopped ≠ []) :
    ((_healthcheck env body).2.calls.filter
        (fun c => c.sel = ApiSel.describe_tasks))
      = [⟨.describe_tasks,
          [("cluster", .vstr cluster),
           ("tasks", .vlist (((running ++ stopped).map PyVal.vstr).dedup))]⟩]
    ∧ (((running ++ stopped).map PyVal.vstr).dedup).Nodup
    ∧ (∀ a, a ∈ ((running ++ stopped).map PyVal.vstr).dedup ↔
        a ∈ (running ++ stopped).map PyVal.vstr) := by
  refine ⟨?_, List.nodup_dedup _, fun a => List.mem_dedup⟩
  have hrk : ¬ (rkvs = []) := by
    intro h; subst h; simp [dget] at hRa
  have hsk : ¬ (skvs = []) := by
    intro h; subst h; simp [dget] at hSa
  have hdedne :
      ¬ ((List.map PyVal.vstr running ++ List.map PyVal.vstr stopped).dedup
        = []) := by
    intro hmm
    have h2 := (List.dedup_eq_nil _).mp hmm
    rw [← List.map_append] at h2
    exact hne (by simpa using h2)
  unfold _healthcheck invokeApi
  simp [pygetD, hb, PyVal.isStr, M.bind_def, M.pure_def, recordCall,
    liftExc, invoke, hR, hS, pyOr, PyVal.truthy, hrk, hsk,
    Boto3Result.init, PyVal.isDict, hRe, hSe, PyVal.get2,
    Boto3Result.body, hRa, hSa, pyAdd, pyListSet, pyIter, PyVal.isList,
    Trace.append, Trace.empty, throwM, hdedne, List.map_append,
    List.mem_map, List.mem_append, Bind.bind, Except.bind]
  rcases hd : env.api ApiSel.describe_tasks
      [("cluster", PyVal.vstr cluster),
       ("tasks", PyVal.vlist
         ((List.map PyVal.vstr running ++ List.map PyVal.vstr stopped).dedup))]
    with e | r
  · simp [hd, List.filter]
  · simp only [hd]
    split_ifs <;>
      try simp [List.filter, M.bind_def, M.pure_def, Trace.append,
        Trace.empty]
    all_goals
      cases hEq : (Boto3Result.mk (some r) none).errTruthy <;>
        exact fun a ha => nomatch ha

/-- C5 witness: overlapping listings `["a","b"]` and `["b","c"]` describe
`["a","b","c"]`. -/
theorem C5_witness :
    ((_healthcheck envHC [("cluster", .vstr "c")]).2.calls.filter
        (fun c => c.sel = ApiSel.describe_tasks))
      = [⟨.describe_tasks,
          [("cluster", .vstr "c"),
           ("tasks", .vlist [.vstr "a", .vstr "b", .vstr "c"])]⟩] ∧
    (PyVal.vstr "b" ∈ ((["a", "b"] ++ ["b", "c"]).map PyVal.vstr).dedup ↔
      PyVal.vstr "b" ∈ (["a", "b"] ++ ["b", "c"]).map PyVal.vstr) := by
  have h := C5_healthcheck_dedup envHC [("cluster", .vstr "c")] "c"
    ["a", "b"] ["b", "c"]
    [("taskArns", .vlist [.vstr "a", .vstr "b"])]
    [("taskArns", .vlist [.vstr "b", .vstr "c"])]
    (by decide) (by decide) (by decide) (by decide) (by decide)
    (by decide) (by decide) (by decide)
  exact ⟨h.1.trans (by decide), h.2.2 (PyVal.vstr "b")⟩

/-! ## C7 -/


theorem mapParamsLoop_calls_tags (env : Env) :
    ∀ (ps acc : List PyVal) (c : ApiCall),
      c ∈ (mapParamsLoop env ps acc).2.calls →
      c.sel = ApiSel.list_tags_for_resource := by
  intro ps
  induction ps with
  | nil =>
      intro acc c hc
      simp [mapParamsLoop, M.pure_def, Trace.empty] at hc
  | cons p rest ih =>
      intro acc c hc
      rw [mapParamsLoop] at hc
      rcases hg : p.get2 "Name" PyVal.vnone with e | nameV <;>
        simp only [hg, M.bind_def, M.pure_def, liftExc, invokeApi,
          recordCall, Trace.append, Trace.empty, List.nil_append,
          List.append_nil] at hc
      · simp at hc
      · rcases hi : invoke (env.api ApiSel.list_tags_for_resource)
            [("ResourceType", PyVal.vstr "Parameter"), ("ResourceId", nameV)]
          with e | r <;> simp only [hi] at hc
        · simp at hc
          simp [hc]
        · by_cases he : r.errTruthy = true <;>
            simp only [he, if_true, if_false, reduceIte] at hc
          · simp at hc
            simp [hc]
          · rcases ht : r.body.get2 "TagList" (PyVal.vlist [])
              with e | tagList <;> simp only [ht] at hc
            · simp at hc
              simp [hc]
            · rcases hsi : pySetItem p "Tags" tagList with e | p1 <;>
                simp only [hsi] at hc
              · simp at hc
                simp [hc]
              · rcases hit : pyIter tagList with e | tags <;>
                  simp only [hit] at hc
                · simp at hc
                  simp [hc]
                · rcases hfm : exceptFilterM (fun tag => do
                      let k ← tag.get2 "Key" PyVal.vnone
                      pure (decide (k = PyVal.vstr "ENV_VAR_NAME"))) tags
                    with e | tag_list <;> simp only [hfm] at hc
                  · simp at hc
                    simp [hc]
                  · rcases tag_list with _ | ⟨t0, tail⟩
                    · rcases hrec : mapParamsLoop env rest (p1 :: acc)
                        with ⟨rr, tr⟩
                      simp only [hrec] at hc
                      simp at hc
                      rcases hc with hc | hc
                      · simp [hc]
                      · exact ih (p1 :: acc) c (by rw [hrec]; exact hc)
                    · rcases hv : t0.get2 "Value" PyVal.vnone with e | v <;>
                        simp only [hv] at hc
                      · simp at hc
                        simp [hc]
                      · rcases hsi2 : pySetItem p1 "ENV_VAR_NAME" v
                          with e | p2 <;> simp only [hsi2] at hc
                        · simp at hc
                          simp [hc]
                        · rcases hrec : mapParamsLoop env rest (p2 :: acc)
                            with ⟨rr, tr⟩
                          simp only [hrec] at hc
                          simp at hc
                          rcases hc with hc | hc
                          · simp [hc]
                          · exact ih (p2 :: acc) c (by rw [hrec]; exact hc)

theorem secretsStage_calls_tags (env : Env) (secrets : PyVal) (c : ApiCall)
    (hc : c ∈ (secretsStage env secrets).2.calls) :
    c.sel = ApiSel.list_tags_for_resource := by
  unfold secretsStage _map_ecs_ssm_parameters at hc
  by_cases h1 : secrets.truthy = true ∧ ¬ secrets.isList = true <;>
    by_cases h2 : secrets.truthy = true ∧ secrets.isList = true <;>
    simp only [h1, h2, if_true, if_false, reduceIte, M.bind_def, M.pure_def,
      liftExc, Trace.append, Trace.empty, List.nil_append,
      List.append_nil] at hc
  · simp [Boto3Result.init] at hc
  · simp [Boto3Result.init] at hc
  · rcases hit : pyIter secrets with e | patterns <;>
      simp only [hit] at hc
    · simp at hc
    · rcases hce : compileEngines env patterns with e | engines
      · rcases e <;> simp [hce, Boto3Result.init, throwM, Trace.empty] at hc
      · rcases hcp : collectParams engines env.ssm_pages with e | ps <;>
          simp only [hce, hcp] at hc
        · simp [throwM, Trace.empty] at hc
        · rcases hrec : mapParamsLoop env ps [] with ⟨rr, tr⟩
          simp only [hrec] at hc
          rcases rr with e | rr2
          · simp at hc
            exact mapParamsLoop_calls_tags env ps [] c
              (by rw [hrec]; simpa using hc)
          · rcases rr2 with r | params
            · by_cases herr : r.errTruthy = true <;>
                simp only [herr, if_true, if_false, reduceIte] at hc
              · simp at hc
                exact mapParamsLoop_calls_tags env ps [] c
                  (by rw [hrec]; simpa using hc)
              · rcases hpi : pyIndex r.body "map" with e | m <;>
                  simp only [hpi] at hc <;> simp at hc <;>
                  exact mapParamsLoop_calls_tags env ps [] c
                    (by rw [hrec]; simpa using hc)
            · rcases hev : envVarMapOf params with e | m <;>
                simp only [hev] at hc
              · simp at hc
                exact mapParamsLoop_calls_tags env ps [] c
                  (by rw [hrec]; simpa using hc)
              · simp [Boto3Result.init, Boto3Result.errTruthy,
                  Boto3Result.error, Boto3Result.status, Boto3Result.body,
                  PyVal.get2, dget, pyOr, PyVal.truthy, pyStr, pyRepr,
                  pyIndex, Trace.append, Trace.empty, PyVal.isDict,
                  Except.toOption, Option.getD, Except.bind] at hc
                exact mapParamsLoop_calls_tags env ps [] c
                  (by rw [hrec]; simpa using hc)
  · simp at hc

/-- C7: for a deploy whose described task definition is unchanged by the
requested image/secrets edits, no `register_task_definition` call is
issued, and `update_service` is called exactly once — with the unchanged
task-definition ARN and `forceNewDeployment` — and the run returns the
success payload. -/
theorem C7_deploy_no_change (env : Env) (body : List (String × PyVal))
    (nameV arnV tdArnV svcArnOut : PyVal)
    (tdkvs : List (String × PyVal))
    (smOpt : Option PyVal) (trS : Trace)
    (hclne : pygetD body "cluster_id" ≠ .vnone)
    (hsvne : pygetD body "service_ids" ≠ .vnone)
    (hsec : secretsStage env (pygetD body "secrets")
      = (.ok (.inr smOpt), trS))
    (hds : env.api .describe_services
        [("cluster", pygetD body "cluster_id"),
         ("services", pygetD body "service_ids")]
      = .ok (.vdict
          [("ResponseMetadata", .vdict [("HTTPStatusCode", .vint 200)]),
           ("services", .vlist
             [.vdict [("serviceName", nameV), ("serviceArn", arnV),
                      ("taskDefinition", tdArnV)]])]))
    (hmem : pyMem nameV (pygetD body "service_ids") = .ok true)
    (hdt : env.api .describe_task_definition [("taskDefinition", tdArnV)]
      = .ok (.vdict
          [("ResponseMetadata", .vdict [("HTTPStatusCode", .vint 200)]),
           ("taskDefinition", .vdict tdkvs)]))
    (hedit : editContainerDefs (pygetD body "secrets") smOpt
        (pygetD body "image") (.vdict tdkvs) = .ok (.vdict tdkvs))
    (htda : dget tdkvs "taskDefinitionArn" = some tdArnV)
    (hus : env.api .update_service
        [("cluster", pygetD body "cluster_id"), ("service", nameV),
         ("taskDefinition", tdArnV), ("forceNewDeployment", .vbool true)]
      = .ok (.vdict
          [("ResponseMetadata", .vdict [("HTTPStatusCode", .vint 200)]),
           ("service", .vdict [("serviceArn", svcArnOut)])])) :
    ((_deploy env body).2.calls.filter
        (fun c => c.sel = ApiSel.register_task_definition)) = [] ∧
    ((_deploy env body).2.calls.filter
        (fun c => c.sel = ApiSel.update_service))
      = [⟨.update_service,
          [("cluster", pygetD body "cluster_id"), ("service", nameV),
           ("taskDefinition", tdArnV),
           ("forceNewDeployment", .vbool true)]⟩] ∧
    (_deploy env body).1
      = .ok ⟨some (.vdict
          [("ResponseMetadata", .vdict [("HTTPStatusCode", .vint 200)]),
           ("UpdatedServiceArns", .vlist [svcArnOut]),
           ("NewTaskdefArn", tdArnV)]), none⟩ := by
  have h200 : toString (200 : Int) = "200" := rfl
  have hrun : _deploy env body =
      (.ok ⟨some (.vdict
          [("ResponseMetadata", .vdict [("HTTPStatusCode", .vint 200)]),
           ("UpdatedServiceArns", .vlist [svcArnOut]),
           ("NewTaskdefArn", tdArnV)]), none⟩,
       trS.append
         ⟨[⟨.describe_services,
            [("cluster", pygetD body "cluster_id"),
             ("services", pygetD body "service_ids")]⟩,
           ⟨.describe_task_definition, [("taskDefinition", tdArnV)]⟩,
           ⟨.update_service,
            [("cluster", pygetD body "cluster_id"), ("service", nameV),
             ("taskDefinition", tdArnV),
             ("forceNewDeployment", .vbool true)]⟩],
          [⟨"Updated service", svcArnOut, "info"⟩]⟩) := by
    unfold _deploy invokeApi deployLoop deployServiceStep update_service
      register_task_definition
    simp [h200, hclne, hsvne, hsec, hds, hmem, hdt, hedit, htda, hus,
      deployLoop, deployServiceStep, update_service,
      register_task_definition, invokeApi, Pure.pure, Except.pure,
      M.bind_def, M.pure_def, liftExc, recordCall, logM, throwM, invoke,
      Boto3Result.init, Boto3Result.errTruthy, Boto3Result.error,
      Boto3Result.status, Boto3Result.body, PyVal.get2, dget, pyOr,
      PyVal.truthy, PyVal.isDict, PyVal.isStr, pyStr, pyRepr, pyIndex,
      pyIter, exceptFilterM, Bind.bind, Except.bind, Except.toOption,
      Option.getD, Trace.append, Trace.empty, dset]
  have htags : ∀ c ∈ trS.calls, c.sel = ApiSel.list_tags_for_resource := by
    intro c hc
    exact secretsStage_calls_tags env (pygetD body "secrets") c
      (by rw [hsec]; exact hc)
  refine ⟨?_, ?_, ?_⟩
  · rw [hrun]
    simp only [Trace.append, List.filter_append]
    rw [List.append_eq_nil]
    constructor
    · rw [List.filter_eq_nil_iff]
      intro c hc
      simp [htags c hc]
    · simp [List.filter]
  · rw [hrun]
    simp only [Trace.append, List.filter_append]
    have h1 : trS.calls.filter
        (fun c => decide (c.sel = ApiSel.update_service)) = [] := by
      rw [List.filter_eq_nil_iff]
      intro c hc
      simp [htags c hc]
    rw [h1]
    simp [List.filter]
  · rw [hrun]

/-- C7 witness: the deploy of service "svc" whose container definition
already carries the requested image. -/
theorem C7_witness :
    ((_deploy envC7 [("cluster_id", .vstr "cl"),
        ("service_ids", .vlist [.vstr "svc"]),
        ("image", .vstr "img:1")]).2.calls.filter
      (fun c => c.sel = ApiSel.register_task_definition)) = [] ∧
    ((_deploy envC7 [("cluster_id", .vstr "cl"),
        ("service_ids", .vlist [.vstr "svc"]),
        ("image", .vstr "img:1")]).2.calls.filter
      (fun c => c.sel = ApiSel.update_service))
      = [⟨.update_service,
          [("cluster", .vstr "cl"), ("service", .vstr "svc"),
           ("taskDefinition", .vstr "arn:taskdef:1"),
           ("forceNewDeployment", .vbool true)]⟩] ∧
    (_deploy envC7 [("cluster_id", .vstr "cl"),
        ("service_ids", .vlist [.vstr "svc"]),
        ("image", .vstr "img:1")]).1
      = .ok ⟨some (.vdict
          [("ResponseMetadata", .vdict [("HTTPStatusCode", .vint 200)]),
           ("UpdatedServiceArns", .vlist [.vstr "arn:svc"]),
           ("NewTaskdefArn", .vstr "arn:taskdef:1")]), none⟩ := by
  have h := C7_deploy_no_change envC7
    [("cluster_id", .vstr "cl"), ("service_ids", .vlist [.vstr "svc"]),
     ("image", .vstr "img:1")]
    (.vstr "svc") (.vstr "arn:svc") (.vstr "arn:taskdef:1") (.vstr "arn:svc")
    [("family", .vstr "fam"),
     ("containerDefinitions",
      .vlist [.vdict [("image", .vstr "img:1"), ("name", .vstr "web")]]),
     ("taskDefinitionArn", .vstr "arn:taskdef:1")]
    none Trace.empty
    (by decide) (by decide) rfl (by decide) (by decide) (by decide)
    (by decide) (by decide) (by decide)
  exact ⟨h.1, h.2.1, h.2.2⟩

theorem dget_none_not_mem (kvs : List (String × PyVal)) (k : String)
    (h : dget kvs k = none) : k ∉ pyKeys kvs := by
  induction kvs with
  | nil => simp [pyKeys]
  | cons p rest ih =>
      rw [dget] at h
      by_cases hk : p.1 = k
      · simp [hk] at h
      · simp only [hk, if_neg] at h
        · simp only [pyKeys, List.map, List.mem_cons]
          rintro (rfl | hmem)
          · exact hk rfl
          · exact ih h hmem

/-- C1 (amended): `lambda_handler` converts pre-dispatch failures into the
returned mapping — a missing `command`/`body` key (part 1) and an
unrecognized command (part 2) both return a mapping — and converts any
`Boto3Result` a handler returns into the response envelope (part 4); but an
exception RAISED inside the dispatched handler (the `ValueError` from the
missing-keys builder, the `KeyError` from the container-definition lookup)
propagates out of `lambda_handler` unchanged (part 3), contrary to the
original claim that no failure escapes. -/
theorem C1_amended (env : Env) :
    (∀ ekvs : List (String × PyVal),
      (dget ekvs "command" = none ∨ dget ekvs "body" = none) →
      ∃ out tr, lambda_handler env (.vdict ekvs) = (.ok out, tr) ∧
        out.isDict = true) ∧
    (∀ (ekvs : List (String × PyVal)) (cv bv : PyVal),
      dget ekvs "command" = some cv → dget ekvs "body" = some bv →
      commandNotInDispatch cv = .ok true →
      ∃ out tr, lambda_handler env (.vdict ekvs) = (.ok out, tr) ∧
        out.isDict = true) ∧
    (∀ (ekvs bkvs : List (String × PyVal)) (s : String) (e : Exn)
        (tr₁ : Trace),
      dget ekvs "command" = some (.vstr s) →
      dget ekvs "body" = some (.vdict bkvs) →
      s ∈ dispatchKeys →
      ((dispatchLookup s).getD _runtask) env bkvs = (.error e, tr₁) →
      (lambda_handler env (.vdict ekvs)).1 = .error e) ∧
    (∀ (ekvs bkvs : List (String × PyVal)) (s : String) (r : Boto3Result)
        (tr₁ : Trace),
      dget ekvs "command" = some (.vstr s) →
      dget ekvs "body" = some (.vdict bkvs) →
      s ∈ dispatchKeys →
      ((dispatchLookup s).getD _runtask) env bkvs = (.ok r, tr₁) →
      (r.errTruthy = true ∨ r.body.isDict = true) →
      ∃ out tr, lambda_handler env (.vdict ekvs) = (.ok out, tr) ∧
        out.isDict = true) := by
  refine ⟨?_, ?_, ?_, ?_⟩
  · intro ekvs h
    unfold lambda_handler
    cases hcmd : dget ekvs "command" with
    | none =>
        have hnc := dget_none_not_mem ekvs "command" hcmd
        simp [pyIndex, hcmd, hnc, missingRequiredKeys, List.filter,
          M.bind_def, M.pure_def, liftExc, logM, logDict, throwM,
          Trace.append, Trace.empty, pygetD, PyVal.get2, dget, pyStr,
          Except.toOption, Option.getD, Bind.bind, Except.bind, Pure.pure,
          Except.pure, PyVal.isDict]
        exact ⟨_, ⟨_, rfl⟩, rfl⟩
    | some cv =>
        rcases h with h | h
        · rw [hcmd] at h; exact absurd h (by simp)
        · have hm := pyKeys_mem_of_dget_some ekvs "command" cv hcmd
          have hnb := dget_none_not_mem ekvs "body" h
          simp [pyIndex, hcmd, h, hm, hnb, missingRequiredKeys,
            List.filter, M.bind_def, M.pure_def, liftExc, logM, logDict,
            throwM, Trace.append, Trace.empty, pygetD, PyVal.get2, dget,
            pyStr, Except.toOption, Option.getD, Bind.bind, Except.bind,
            Pure.pure, Except.pure, PyVal.isDict]
          exact ⟨_, ⟨_, rfl⟩, rfl⟩
  · intro ekvs cv bv hc hb hnd
    unfold lambda_handler
    simp [pyIndex, hc, hb, hnd, unknownCommandResponse, M.bind_def,
      M.pure_def, liftExc, logM, logDict, throwM, Trace.append,
      Trace.empty, PyVal.get2, dget, pyStr, Except.toOption, Option.getD,
      Bind.bind, Except.bind, Pure.pure, Except.pure, PyVal.isDict]
    exact ⟨_, ⟨_, rfl⟩, rfl⟩
  · intro ekvs bkvs s e tr₁ hc hb hcon hrun
    unfold lambda_handler commandNotInDispatch
    simp [pyIndex, hc, hb, hcon, hrun, M.bind_def, M.pure_def, liftExc,
      logM, logDict, throwM, Trace.append, Trace.empty, Bind.bind,
      Except.bind, Pure.pure, Except.pure]
  · intro ekvs bkvs s r tr₁ hc hb hcon hrun hre
    unfold lambda_handler commandNotInDispatch
    by_cases herr : r.errTruthy = true
    · have hdict := Boto3Result.error_isDict r
      have htr : r.error.truthy = true := herr
      simp [pyIndex, hc, hb, hcon, hrun, pyOr, htr, pyUpdate, M.bind_def,
        M.pure_def, liftExc, logM, logDict, throwM, Trace.append,
        Trace.empty, Bind.bind, Except.bind, Pure.pure, Except.pure,
        PyVal.isDict]
      rcases hx : r.error with _ | _ | _ | _ | _ | xs | kvsx <;>
        simp [hx, PyVal.isDict] at hdict ⊢
      · exact ⟨_, ⟨_, rfl⟩, rfl⟩
    · rcases hre with hre | hre
      · exact absurd hre herr
      · have htr : r.error.truthy = false := by
          revert herr
          unfold Boto3Result.errTruthy
          cases r.error.truthy <;> simp
        rcases hbv : r.body with _ | _ | _ | _ | _ | xs | kvsx <;>
          rw [hbv] at hre <;> simp [PyVal.isDict] at hre
        simp [pyIndex, hc, hb, hcon, hrun, pyOr, htr, hbv, pyUpdate,
          M.bind_def, M.pure_def, liftExc, logM, logDict, throwM,
          Trace.append, Trace.empty, Bind.bind, Except.bind, Pure.pure,
          Except.pure, PyVal.isDict]
        exact ⟨_, ⟨_, rfl⟩, rfl⟩

/-- C1 witness: one concrete event per part of the amended claim — missing
key, unknown command, a handler run that raises (the ValueError escapes),
and a handler run that returns a Result. -/
theorem C1_witness :
    ((lambda_handler envOk (.vdict [("body", .vstr "b")])).1.isOk
      = true) ∧
    ((lambda_handler envOk (.vdict [("command", .vstr "nope"),
        ("body", .vdict [])])).1.isOk = true) ∧
    ((lambda_handler envOk (.vdict [("command", .vstr "runtask"),
        ("body", .vdict [("service_id", .vstr ""),
          ("cluster_id", .vstr "c")])])).1
      = .error (.valueError "there were no missing keys")) ∧
    ((lambda_handler envOk (.vdict [("command", .vstr "healthcheck"),
        ("body", .vdict [("cluster", .vstr "c")])])).1.isOk = true) := by
  refine ⟨?_, ?_, ?_, ?_⟩
  · obtain ⟨out, tr, heq, hdict⟩ :=
      (C1_amended envOk).1 [("body", .vstr "b")] (Or.inl (by decide))
    rw [heq]
    rfl
  · obtain ⟨out, tr, heq, hdict⟩ :=
      (C1_amended envOk).2.1 [("command", .vstr "nope"), ("body", .vdict [])]
        (.vstr "nope") (.vdict []) (by decide) (by decide) (by decide)
    rw [heq]
    rfl
  · exact (C1_amended envOk).2.2.1
      [("command", .vstr "runtask"),
       ("body", .vdict [("service_id", .vstr ""),
         ("cluster_id", .vstr "c")])]
      [("service_id", .vstr ""), ("cluster_id", .vstr "c")]
      "runtask" (.valueError "there were no missing keys") Trace.empty
      (by decide) (by decide) (by decide) rfl
  · obtain ⟨out, tr, heq, hdict⟩ :=
      (C1_amended envOk).2.2.2
        [("command", .vstr "healthcheck"),
         ("body", .vdict [("cluster", .vstr "c")])]
        [("cluster", .vstr "c")] "healthcheck"
        ⟨some (.vdict
          [("msg", .vstr "No task ARNs were found with the given criteria."),
           ("data", .vnone)]), none⟩
        ⟨[⟨.list_tasks, [("cluster", .vstr "c"),
            ("desiredStatus", .vstr "RUNNING")]⟩,
          ⟨.list_tasks, [("cluster", .vstr "c"),
            ("desiredStatus", .vstr "STOPPED")]⟩], []⟩
        (by decide) (by decide) (by decide) rfl
        (Or.inr (by decide))
    rw [heq]
    rfl
